import Mathlib

/-!
# UME::SIMD — lane-level model of two backend vectors

A shallow embedding of

* `SIMDVec_u<uint32_t, 2>` (`plugins/avx2/uint/UMESimdVecUint32_2.h`), a scalar
  backend holding `uint32_t mVec[2]`;
* `SIMDVec_f<double, 8>` (`plugins/avx/float/UMESimdVecFloat64_8.h`), an AVX
  backend holding two `__m256d` sub-registers.

Machine words are natural numbers: a `uint32_t` is its value, a `double` is its
64-bit pattern.  Memory is a list of cells, a pointer is a cell index, and every
access outside the list is an error (`none`).
-/

namespace UME

/-- Typed memory: one cell per scalar, addressed by cell index. -/
abbrev Mem := List Nat

/-- Checked store `p[k] = x`: fails outside the allocated cells. -/
def Mem.write (mem : Mem) (k : Nat) (x : Nat) : Option Mem :=
  if k < mem.length then some (mem.set k x) else none

/-! ## `SIMDVec_u<uint32_t, 2>` -/

/-- Storage of `SIMDVec_u<uint32_t, 2>`: the two cells of `uint32_t mVec[2]`. -/
structure SIMDVec_u_32_2 where
  mVec0 : Nat
  mVec1 : Nat
deriving DecidableEq, Repr

/-- Storage of `SIMDVec_u<uint32_t, 1>`, the half-length vector: `mVec[1]`. -/
structure SIMDVec_u_32_1 where
  mVec0 : Nat
deriving DecidableEq, Repr

/-- Modelled from the spec: `SIMDVecMask<2>` is declared outside the given sources; the spec
describes a mask as one boolean per lane, read with `mask[i]`. -/
structure SIMDVecMask2 where
  m0 : Bool
  m1 : Bool
deriving DecidableEq, Repr

/-- The read `mask[i]` of a two-lane mask, for the literal indices the code uses. -/
def SIMDVecMask2.get (mask : SIMDVecMask2) (i : Nat) : Bool :=
  if i = 0 then mask.m0 else mask.m1

namespace SIMDVec_u_32_1

/-- Modelled from the spec: `SIMDVec_u<uint32_t, 1>::insert` is declared outside the given
sources. By the spec `insert` writes the lane `index` modulo the lane count, which for one
lane is lane 0 whatever the index. -/
def insert (a : SIMDVec_u_32_1) (index : Nat) (value : Nat) : SIMDVec_u_32_1 :=
  if index % 1 = 0 then { a with mVec0 := value } else a

/-- Modelled from the spec: `SIMDVec_u<uint32_t, 1>::extract` is declared outside the given
sources. By the spec `extract` reads the lane `index` modulo the lane count, lane 0. -/
def extract (a : SIMDVec_u_32_1) (index : Nat) : Option Nat :=
  [a.mVec0][index % 1]?

end SIMDVec_u_32_1

namespace SIMDVec_u_32_2

/-- The read `mVec[k]` with a run-time subscript: only cells 0 and 1 exist. -/
def mVecRead (v : SIMDVec_u_32_2) (k : Nat) : Option Nat :=
  [v.mVec0, v.mVec1][k]?

/-- The write `mVec[k] = x` with a run-time subscript: only cells 0 and 1 exist. -/
def mVecWrite (v : SIMDVec_u_32_2) (k : Nat) (x : Nat) : Option SIMDVec_u_32_2 :=
  match k with
  | 0 => some { v with mVec0 := x }
  | 1 => some { v with mVec1 := x }
  | _ => none

/-- The constructor `SIMDVec_u(uint32_t i)`. -/
def ofScalar (i : Nat) : SIMDVec_u_32_2 :=
  { mVec0 := i, mVec1 := i }

/-- The constructor `SIMDVec_u(uint32_t i0, uint32_t i1)`. -/
def ofScalars (i0 i1 : Nat) : SIMDVec_u_32_2 :=
  { mVec0 := i0, mVec1 := i1 }

/-- The LOAD-CONSTR `SIMDVec_u(uint32_t const *p)`: `mVec[0] = p[0]; mVec[1] = p[1];`. The
result is the constructed vector and the memory after the call. -/
def ofPtr (mem : Mem) (p : Nat) : Option (SIMDVec_u_32_2 × Mem) := do
  let x0 ← mem[p]?
  let x1 ← mem[p + 1]?
  pure ({ mVec0 := x0, mVec1 := x1 }, mem)

/-- EXTRACT: `return mVec[index & 1];`. -/
def extract (v : SIMDVec_u_32_2) (index : Nat) : Option Nat :=
  v.mVecRead (index &&& 1)

/-- The access operator `operator[] (uint32_t index)`: `return mVec[index & 1];`. -/
def subscript (v : SIMDVec_u_32_2) (index : Nat) : Option Nat :=
  v.mVecRead (index &&& 1)

/-- The scalar insert: `mVec[index & 1] = value; return *this;`. -/
def insert (v : SIMDVec_u_32_2) (index : Nat) (value : Nat) : Option SIMDVec_u_32_2 :=
  v.mVecWrite (index &&& 1) value

/-- PREFINC: `mVec[0]++; mVec[1]++; return *this;` on 32-bit unsigned cells. -/
def prefinc (v : SIMDVec_u_32_2) : SIMDVec_u_32_2 :=
  let v := { v with mVec0 := (v.mVec0 + 1) % 2 ^ 32 }
  let v := { v with mVec1 := (v.mVec1 + 1) % 2 ^ 32 }
  v

/-- MPREFINC: each increment guarded by `mask[i] == true`. -/
def prefinc_MPREFINC (mask : SIMDVecMask2) (v : SIMDVec_u_32_2) : SIMDVec_u_32_2 :=
  let v := if mask.get 0 == true then { v with mVec0 := (v.mVec0 + 1) % 2 ^ 32 } else v
  let v := if mask.get 1 == true then { v with mVec1 := (v.mVec1 + 1) % 2 ^ 32 } else v
  v

/-- UNIQUE: `return mVec[0] != mVec[1];`. -/
def unique (v : SIMDVec_u_32_2) : Bool :=
  v.mVec0 != v.mVec1

/-- GATHERS: `mVec[0] = baseAddr[indices[0]]; mVec[1] = baseAddr[indices[1]];` with the
indices in a `uint64_t` array. The result is the receiver and the memory after the call. -/
def gather_GATHERS (v : SIMDVec_u_32_2) (mem : Mem) (baseAddr : Nat) (indices : List Nat) :
    Option (SIMDVec_u_32_2 × Mem) := do
  let i0 ← indices[0]?
  let x0 ← mem[baseAddr + i0]?
  let v := { v with mVec0 := x0 }
  let i1 ← indices[1]?
  let x1 ← mem[baseAddr + i1]?
  let v := { v with mVec1 := x1 }
  pure (v, mem)

/-- MGATHERS: the two assignments of GATHERS, each guarded by `mask[i] == true`. -/
def gather_MGATHERS (mask : SIMDVecMask2) (v : SIMDVec_u_32_2) (mem : Mem) (baseAddr : Nat)
    (indices : List Nat) : Option (SIMDVec_u_32_2 × Mem) := do
  let v ←
    if mask.get 0 == true then do
      let i0 ← indices[0]?
      let x0 ← mem[baseAddr + i0]?
      pure { v with mVec0 := x0 }
    else pure v
  let v ←
    if mask.get 1 == true then do
      let i1 ← indices[1]?
      let x1 ← mem[baseAddr + i1]?
      pure { v with mVec1 := x1 }
    else pure v
  pure (v, mem)

/-- GATHERV: as GATHERS, the indices read with `operator[]` from another vector. -/
def gather_GATHERV (v : SIMDVec_u_32_2) (mem : Mem) (baseAddr : Nat)
    (indices : SIMDVec_u_32_2) : Option (SIMDVec_u_32_2 × Mem) := do
  let i0 ← indices.subscript 0
  let x0 ← mem[baseAddr + i0]?
  let v := { v with mVec0 := x0 }
  let i1 ← indices.subscript 1
  let x1 ← mem[baseAddr + i1]?
  let v := { v with mVec1 := x1 }
  pure (v, mem)

/-- GATHERV called as `v.gather(baseAddr, v)`: the index vector is the receiver itself, so
the second subscript reads the receiver after its first cell was overwritten. -/
def gather_GATHERV_self (v : SIMDVec_u_32_2) (mem : Mem) (baseAddr : Nat) :
    Option (SIMDVec_u_32_2 × Mem) := do
  let i0 ← v.subscript 0
  let x0 ← mem[baseAddr + i0]?
  let v := { v with mVec0 := x0 }
  let i1 ← v.subscript 1
  let x1 ← mem[baseAddr + i1]?
  let v := { v with mVec1 := x1 }
  pure (v, mem)

/-- MGATHERV: the two assignments of GATHERV, each guarded by `mask[i] == true`. -/
def gather_MGATHERV (mask : SIMDVecMask2) (v : SIMDVec_u_32_2) (mem : Mem) (baseAddr : Nat)
    (indices : SIMDVec_u_32_2) : Option (SIMDVec_u_32_2 × Mem) := do
  let v ←
    if mask.get 0 == true then do
      let i0 ← indices.subscript 0
      let x0 ← mem[baseAddr + i0]?
      pure { v with mVec0 := x0 }
    else pure v
  let v ←
    if mask.get 1 == true then do
      let i1 ← indices.subscript 1
      let x1 ← mem[baseAddr + i1]?
      pure { v with mVec1 := x1 }
    else pure v
  pure (v, mem)

/-- SCATTERS: `baseAddr[indices[0]] = mVec[0]; baseAddr[indices[1]] = mVec[1];
return baseAddr;`. The result is the receiver and the memory after the call, and the
returned pointer. -/
def scatter_SCATTERS (v : SIMDVec_u_32_2) (mem : Mem) (baseAddr : Nat) (indices : List Nat) :
    Option (SIMDVec_u_32_2 × Mem × Nat) := do
  let i0 ← indices[0]?
  let mem ← mem.write (baseAddr + i0) v.mVec0
  let i1 ← indices[1]?
  let mem ← mem.write (baseAddr + i1) v.mVec1
  pure (v, mem, baseAddr)

/-- MSCATTERS: the two stores of SCATTERS, each guarded by `mask[i] == true`. -/
def scatter_MSCATTERS (mask : SIMDVecMask2) (v : SIMDVec_u_32_2) (mem : Mem) (baseAddr : Nat)
    (indices : List Nat) : Option (SIMDVec_u_32_2 × Mem × Nat) := do
  let mem ←
    if mask.get 0 == true then do
      let i0 ← indices[0]?
      mem.write (baseAddr + i0) v.mVec0
    else pure mem
  let mem ←
    if mask.get 1 == true then do
      let i1 ← indices[1]?
      mem.write (baseAddr + i1) v.mVec1
    else pure mem
  pure (v, mem, baseAddr)

/-- SCATTERV: as SCATTERS, the indices read with `operator[]` from another vector. -/
def scatter_SCATTERV (v : SIMDVec_u_32_2) (mem : Mem) (baseAddr : Nat)
    (indices : SIMDVec_u_32_2) : Option (SIMDVec_u_32_2 × Mem × Nat) := do
  let i0 ← indices.subscript 0
  let mem ← mem.write (baseAddr + i0) v.mVec0
  let i1 ← indices.subscript 1
  let mem ← mem.write (baseAddr + i1) v.mVec1
  pure (v, mem, baseAddr)

/-- MSCATTERV: the two stores of SCATTERV, each guarded by `mask[i] == true`. -/
def scatter_MSCATTERV (mask : SIMDVecMask2) (v : SIMDVec_u_32_2) (mem : Mem) (baseAddr : Nat)
    (indices : SIMDVec_u_32_2) : Option (SIMDVec_u_32_2 × Mem × Nat) := do
  let mem ←
    if mask.get 0 == true then do
      let i0 ← indices.subscript 0
      mem.write (baseAddr + i0) v.mVec0
    else pure mem
  let mem ←
    if mask.get 1 == true then do
      let i1 ← indices.subscript 1
      mem.write (baseAddr + i1) v.mVec1
    else pure mem
  pure (v, mem, baseAddr)

/-- The call `v.prefinc()` as its caller sees it: the receiver after the call, and the value
read through the returned reference `*this`. -/
def prefinc_call (v : SIMDVec_u_32_2) : SIMDVec_u_32_2 × SIMDVec_u_32_2 :=
  let this := v.prefinc
  (this, this)

/-- UNPACK: `a.insert(0, mVec[0]); b.insert(0, mVec[1]);`. The result is the receiver and the
two half-length vectors after the call. -/
def unpack (v : SIMDVec_u_32_2) (a b : SIMDVec_u_32_1) :
    SIMDVec_u_32_2 × SIMDVec_u_32_1 × SIMDVec_u_32_1 :=
  let a := a.insert 0 v.mVec0
  let b := b.insert 0 v.mVec1
  (v, a, b)

/-- Modelled from the spec: PACK is only named in a comment of this class; the operation comes
from `SIMDVecPackableInterface`, declared outside the given sources. By the spec `pack` assigns
the full vector from two half-width vectors, the low half (lane 0) from `a` and the high half
(lane 1) from `b`. The result is the receiver after the call. -/
def pack (_v : SIMDVec_u_32_2) (a b : SIMDVec_u_32_1) : SIMDVec_u_32_2 :=
  { mVec0 := a.mVec0, mVec1 := b.mVec0 }

end SIMDVec_u_32_2

/-! ## AVX registers and the intrinsics used by `SIMDVec_f<double, 8>`

The intrinsics come from `<immintrin.h>`; each definition follows the operation
pseudo-code of the instruction it names. -/

/-- A `__m256d` register: four 64-bit lanes, lane 0 lowest. -/
structure M256d where
  d0 : Nat
  d1 : Nat
  d2 : Nat
  d3 : Nat
deriving DecidableEq, Repr

/-- A `__m128i` register seen as four 32-bit lanes, lane 0 lowest. -/
structure M128i where
  e0 : Nat
  e1 : Nat
  e2 : Nat
  e3 : Nat
deriving DecidableEq, Repr

/-- A `__m256i` register seen as eight 32-bit lanes, lane 0 lowest. -/
structure M256i where
  e0 : Nat
  e1 : Nat
  e2 : Nat
  e3 : Nat
  e4 : Nat
  e5 : Nat
  e6 : Nat
  e7 : Nat
deriving DecidableEq, Repr

/-- Intrinsic `_mm256_set1_pd`: broadcast one double to the four lanes. -/
def _mm256_set1_pd (a : Nat) : M256d :=
  { d0 := a, d1 := a, d2 := a, d3 := a }

/-- Intrinsic `_mm256_setr_pd`: the arguments in lane order, first argument in lane 0. -/
def _mm256_setr_pd (e3 e2 e1 e0 : Nat) : M256d :=
  { d0 := e3, d1 := e2, d2 := e1, d3 := e0 }

/-- Intrinsic `_mm256_loadu_pd`: read four consecutive doubles, any address. -/
def _mm256_loadu_pd (mem : Mem) (p : Nat) : Option M256d := do
  let a0 ← mem[p]?
  let a1 ← mem[p + 1]?
  let a2 ← mem[p + 2]?
  let a3 ← mem[p + 3]?
  pure { d0 := a0, d1 := a1, d2 := a2, d3 := a3 }

/-- Intrinsic `_mm256_load_pd`: as `_mm256_loadu_pd`, and the address must lie on a 32-byte
boundary. Cell 0 of a memory sits on such a boundary, a cell is 8 bytes, so the aligned
addresses are the multiples of 4. -/
def _mm256_load_pd (mem : Mem) (p : Nat) : Option M256d :=
  if p % 4 = 0 then _mm256_loadu_pd mem p else none

/-- Intrinsic `_mm256_storeu_pd`: write the four lanes to consecutive doubles, any address. -/
def _mm256_storeu_pd (mem : Mem) (p : Nat) (a : M256d) : Option Mem := do
  let mem ← mem.write p a.d0
  let mem ← mem.write (p + 1) a.d1
  let mem ← mem.write (p + 2) a.d2
  let mem ← mem.write (p + 3) a.d3
  pure mem

/-- Intrinsic `_mm256_store_pd`: as `_mm256_storeu_pd`, on a 32-byte boundary only. -/
def _mm256_store_pd (mem : Mem) (p : Nat) (a : M256d) : Option Mem :=
  if p % 4 = 0 then _mm256_storeu_pd mem p a else none

/-- Intrinsic `_mm256_extractf128_si256`: bit 0 of the immediate selects the low or the
high 128 bits. -/
def _mm256_extractf128_si256 (a : M256i) (imm8 : Nat) : M128i :=
  if imm8 % 2 = 0 then { e0 := a.e0, e1 := a.e1, e2 := a.e2, e3 := a.e3 }
  else { e0 := a.e4, e1 := a.e5, e2 := a.e6, e3 := a.e7 }

/-- Position of the highest set bit of `n` (0 for `n < 2`), by halving at most `fuel` times. -/
def highBit : Nat → Nat → Nat
  | 0, _ => 0
  | fuel + 1, n => if n < 2 then 0 else highBit fuel (n / 2) + 1

/-- Conversion of one signed 32-bit integer, given by its bit pattern, to the bit pattern of
the double of the same value (exact: 53 significand bits hold every 32-bit integer). -/
def cvt_i32_f64 (w : Nat) : Nat :=
  let w := w % 2 ^ 32
  if w = 0 then 0
  else
    let sign := if 2 ^ 31 ≤ w then 1 else 0
    let mag := if 2 ^ 31 ≤ w then 2 ^ 32 - w else w
    let e := highBit 32 mag
    sign * 2 ^ 63 + (e + 1023) * 2 ^ 52 + (mag - 2 ^ e) * 2 ^ (52 - e)

/-- Intrinsic `_mm256_cvtepi32_pd`: convert four signed 32-bit integers to four doubles. -/
def _mm256_cvtepi32_pd (a : M128i) : M256d :=
  { d0 := cvt_i32_f64 a.e0, d1 := cvt_i32_f64 a.e1,
    d2 := cvt_i32_f64 a.e2, d3 := cvt_i32_f64 a.e3 }

/-- Bit 63 of a 64-bit lane: the sign bit of a double. -/
def signBit64 (x : Nat) : Bool :=
  x.testBit 63

/-- Intrinsic `_mm256_blendv_pd`: lane `j` of the result is lane `j` of `b` when bit 63 of
lane `j` of `mask` is set, lane `j` of `a` otherwise. -/
def _mm256_blendv_pd (a b mask : M256d) : M256d :=
  { d0 := if signBit64 mask.d0 then b.d0 else a.d0,
    d1 := if signBit64 mask.d1 then b.d1 else a.d1,
    d2 := if signBit64 mask.d2 then b.d2 else a.d2,
    d3 := if signBit64 mask.d3 then b.d3 else a.d3 }

/-- The `__m256i` read from the union `x` after its member `pd` was written: the same 256
bits, each 64-bit lane seen as its low and its high 32-bit lane. -/
def unionPdAsEpi64 (x : M256d) : M256i :=
  { e0 := x.d0 % 2 ^ 32, e1 := x.d0 / 2 ^ 32 % 2 ^ 32,
    e2 := x.d1 % 2 ^ 32, e3 := x.d1 / 2 ^ 32 % 2 ^ 32,
    e4 := x.d2 % 2 ^ 32, e5 := x.d2 / 2 ^ 32 % 2 ^ 32,
    e6 := x.d3 % 2 ^ 32, e7 := x.d3 / 2 ^ 32 % 2 ^ 32 }

/-- Store `p[k] = x` under a condition: nothing is accessed when the condition is false. -/
def Mem.condWrite (b : Bool) (mem : Mem) (k : Nat) (x : Nat) : Option Mem :=
  if b then mem.write k x else some mem

/-- Four conditional stores in lane order: `p[j] = a[j]` for each `j` whose condition holds. -/
def Mem.condWrite4 (c0 c1 c2 c3 : Bool) (mem : Mem) (p : Nat) (a : M256d) : Option Mem := do
  let mem ← mem.condWrite c0 p a.d0
  let mem ← mem.condWrite c1 (p + 1) a.d1
  let mem ← mem.condWrite c2 (p + 2) a.d2
  let mem ← mem.condWrite c3 (p + 3) a.d3
  pure mem

/-- The conditional store as a total update of an allocated memory. -/
def Mem.condSet (b : Bool) (mem : Mem) (k : Nat) (x : Nat) : Mem :=
  if b then mem.set k x else mem

/-- The memory after the four conditional stores of `Mem.condWrite4`, all cells allocated. -/
def Mem.condSet4 (c0 c1 c2 c3 : Bool) (mem : Mem) (p : Nat) (a : M256d) : Mem :=
  Mem.condSet c3 (Mem.condSet c2 (Mem.condSet c1 (Mem.condSet c0 mem p a.d0) (p + 1) a.d1)
    (p + 2) a.d2) (p + 3) a.d3

/-- Intrinsic `_mm256_maskstore_pd`: lane `j` of `a` is stored to `p[j]` when the highest bit
of the 64-bit element `j` of `mask` is set, that is bit 31 of its 32-bit lane `2j+1`; the
other cells are not accessed, and no alignment is required. -/
def _mm256_maskstore_pd (mem : Mem) (p : Nat) (mask : M256i) (a : M256d) : Option Mem :=
  mem.condWrite4 (mask.e1.testBit 31) (mask.e3.testBit 31) (mask.e5.testBit 31)
    (mask.e7.testBit 31) p a

/-- Intrinsic `_mm256_add_pd`: lane `j` of the result is the double sum of lane `j` of `a` and
lane `j` of `b`. The sum of two doubles, a function of their bit patterns fixed by the
hardware, is the parameter `add`. -/
def _mm256_add_pd (add : Nat → Nat → Nat) (a b : M256d) : M256d :=
  { d0 := add a.d0 b.d0, d1 := add a.d1 b.d1, d2 := add a.d2 b.d2, d3 := add a.d3 b.d3 }

/-! ## `SIMDVec_f<double, 8>` (AVX) -/

/-- Modelled from the spec: the AVX `SIMDVecMask<8>` is declared outside the given sources; the
vector reads its member `mMask`, a `__m256i` of eight 32-bit lanes. -/
structure SIMDVecMask8 where
  mMask : M256i
deriving DecidableEq, Repr

/-- The 32-bit lane a mask holds for one boolean: all ones for `true`, zero for `false`. -/
def maskLane32 (b : Bool) : Nat :=
  if b then 0xFFFFFFFF else 0

/-- The mask register whose eight 32-bit lanes encode eight booleans. -/
def SIMDVecMask8.ofBools (b0 b1 b2 b3 b4 b5 b6 b7 : Bool) : SIMDVecMask8 :=
  { mMask := { e0 := maskLane32 b0, e1 := maskLane32 b1, e2 := maskLane32 b2,
               e3 := maskLane32 b3, e4 := maskLane32 b4, e5 := maskLane32 b5,
               e6 := maskLane32 b6, e7 := maskLane32 b7 } }

/-- Storage of `SIMDVec_f<double, 8>`: the sub-registers `mVecLo` and `mVecHi`. -/
structure SIMDVec_f_64_8 where
  mVecLo : M256d
  mVecHi : M256d
deriving DecidableEq, Repr

namespace SIMDVec_f_64_8

/-- The local `alignas(32) double raw[4]` before anything is stored in it. -/
def rawScratch : Mem := [0, 0, 0, 0]

/-- SET-CONSTR `SIMDVec_f(double d)`. -/
def ofScalar (d : Nat) : SIMDVec_f_64_8 :=
  { mVecLo := _mm256_set1_pd d, mVecHi := _mm256_set1_pd d }

/-- FULL-CONSTR `SIMDVec_f(d0, ..., d7)`. -/
def ofScalars (d0 d1 d2 d3 d4 d5 d6 d7 : Nat) : SIMDVec_f_64_8 :=
  { mVecLo := _mm256_setr_pd d0 d1 d2 d3, mVecHi := _mm256_setr_pd d4 d5 d6 d7 }

/-- EXTRACT: spill the sub-register holding the lane into `raw` and read `raw[index]`
or `raw[index - 4]`. -/
def extract (v : SIMDVec_f_64_8) (index : Nat) : Option Nat := do
  let raw := rawScratch
  if index < 4 then
    let raw ← _mm256_store_pd raw 0 v.mVecLo
    raw[index]?
  else
    let raw ← _mm256_store_pd raw 0 v.mVecHi
    raw[index - 4]?

/-- The access operator `operator[] (uint32_t index)`: `return extract(index);`. -/
def subscript (v : SIMDVec_f_64_8) (index : Nat) : Option Nat :=
  v.extract index

/-- INSERT: spill the sub-register into `raw`, overwrite one cell, load it back. -/
def insert (v : SIMDVec_f_64_8) (index : Nat) (value : Nat) : Option SIMDVec_f_64_8 := do
  let raw := rawScratch
  if index < 4 then
    let raw ← _mm256_store_pd raw 0 v.mVecLo
    let raw ← raw.write index value
    let lo ← _mm256_load_pd raw 0
    pure { v with mVecLo := lo }
  else
    let raw ← _mm256_store_pd raw 0 v.mVecHi
    let raw ← raw.write (index - 4) value
    let hi ← _mm256_load_pd raw 0
    pure { v with mVecHi := hi }

/-- LOAD: `mVecLo = _mm256_loadu_pd(p); mVecHi = _mm256_loadu_pd(p + 4); return *this;`. -/
def load (v : SIMDVec_f_64_8) (mem : Mem) (p : Nat) : Option SIMDVec_f_64_8 := do
  let lo ← _mm256_loadu_pd mem p
  let v := { v with mVecLo := lo }
  let hi ← _mm256_loadu_pd mem (p + 4)
  let v := { v with mVecHi := hi }
  pure v

/-- LOAD-CONSTR `SIMDVec_f(const double *p)`: `this->load(p)` on the fresh object, whose
registers hold `v0` before the call. The result is the constructed vector and the memory
after the call. -/
def ofPtr (v0 : SIMDVec_f_64_8) (mem : Mem) (p : Nat) : Option (SIMDVec_f_64_8 × Mem) := do
  let v ← v0.load mem p
  pure (v, mem)

/-- LOADA: `mVecLo = _mm256_load_pd(p); mVecHi = _mm256_load_pd(p + 4); return *this;`. -/
def loada (v : SIMDVec_f_64_8) (mem : Mem) (p : Nat) : Option SIMDVec_f_64_8 := do
  let lo ← _mm256_load_pd mem p
  let v := { v with mVecLo := lo }
  let hi ← _mm256_load_pd mem (p + 4)
  let v := { v with mVecHi := hi }
  pure v

/-- MLOADA: load both halves, turn each half of the mask into doubles with
`_mm256_cvtepi32_pd`, and blend the loaded lanes into the receiver with `_mm256_blendv_pd`. -/
def loada_MLOADA (mask : SIMDVecMask8) (v : SIMDVec_f_64_8) (mem : Mem) (p : Nat) :
    Option SIMDVec_f_64_8 := do
  let t0 ← _mm256_load_pd mem p
  let t1 ← _mm256_load_pd mem (p + 4)
  let t2 := _mm256_extractf128_si256 mask.mMask 0
  let t3 := _mm256_extractf128_si256 mask.mMask 1
  let mask_pd_lo := _mm256_cvtepi32_pd t2
  let mask_pd_hi := _mm256_cvtepi32_pd t3
  let v := { v with mVecLo := _mm256_blendv_pd v.mVecLo t0 mask_pd_lo }
  let v := { v with mVecHi := _mm256_blendv_pd v.mVecHi t1 mask_pd_hi }
  pure v

/-- STORE: `_mm256_storeu_pd(p, mVecLo); _mm256_storeu_pd(p + 4, mVecHi); return p;`.
The result is the receiver and the memory after the call, and the returned pointer. -/
def store (v : SIMDVec_f_64_8) (mem : Mem) (p : Nat) : Option (SIMDVec_f_64_8 × Mem × Nat) := do
  let mem ← _mm256_storeu_pd mem p v.mVecLo
  let mem ← _mm256_storeu_pd mem (p + 4) v.mVecHi
  pure (v, mem, p)

/-- STOREA: `_mm256_store_pd(p, mVecLo); _mm256_store_pd(p + 4, mVecHi); return p;`. -/
def storea (v : SIMDVec_f_64_8) (mem : Mem) (p : Nat) : Option (SIMDVec_f_64_8 × Mem × Nat) := do
  let mem ← _mm256_store_pd mem p v.mVecLo
  let mem ← _mm256_store_pd mem (p + 4) v.mVecHi
  pure (v, mem, p)

/-- The eight lanes in lane order: `mVecLo` holds lanes 0..3, `mVecHi` lanes 4..7. -/
def lanes (v : SIMDVec_f_64_8) : List Nat :=
  [v.mVecLo.d0, v.mVecLo.d1, v.mVecLo.d2, v.mVecLo.d3,
   v.mVecHi.d0, v.mVecHi.d1, v.mVecHi.d2, v.mVecHi.d3]

/-- One step of a lane-by-lane conditional load, `if (mask[i] == true) lane = p[i];`: the new
value of a lane that held `d`. The cell is read only when the mask lane is set. -/
def condRead (b : Bool) (mem : Mem) (k : Nat) (d : Nat) : Option Nat :=
  if b == true then mem[k]? else some d

/-- The lane-by-lane conditional the spec compares MLOADA with: for each lane in turn,
`if (mask[i] == true) lane[i] = p[i];`, the booleans `b0 .. b7` being the mask lanes. -/
def loadaLaneByLane (b0 b1 b2 b3 b4 b5 b6 b7 : Bool) (v : SIMDVec_f_64_8) (mem : Mem)
    (p : Nat) : Option SIMDVec_f_64_8 := do
  let l0 ← condRead b0 mem p v.mVecLo.d0
  let l1 ← condRead b1 mem (p + 1) v.mVecLo.d1
  let l2 ← condRead b2 mem (p + 2) v.mVecLo.d2
  let l3 ← condRead b3 mem (p + 3) v.mVecLo.d3
  let l4 ← condRead b4 mem (p + 4) v.mVecHi.d0
  let l5 ← condRead b5 mem (p + 5) v.mVecHi.d1
  let l6 ← condRead b6 mem (p + 6) v.mVecHi.d2
  let l7 ← condRead b7 mem (p + 7) v.mVecHi.d3
  pure { mVecLo := { d0 := l0, d1 := l1, d2 := l2, d3 := l3 },
         mVecHi := { d0 := l4, d1 := l5, d2 := l6, d3 := l7 } }

/-- MSTOREA: for each half, turn the mask half into doubles with `_mm256_cvtepi32_pd`, read
them back as integers through the union `x`, and store with `_mm256_maskstore_pd`;
`return p;`. The result is the receiver and the memory after the call, and the returned
pointer. -/
def storea_MSTOREA (mask : SIMDVecMask8) (v : SIMDVec_f_64_8) (mem : Mem) (p : Nat) :
    Option (SIMDVec_f_64_8 × Mem × Nat) := do
  let t0 := _mm256_extractf128_si256 mask.mMask 0
  let x_pd := _mm256_cvtepi32_pd t0
  let mem ← _mm256_maskstore_pd mem p (unionPdAsEpi64 x_pd) v.mVecLo
  let t1 := _mm256_extractf128_si256 mask.mMask 1
  let x_pd := _mm256_cvtepi32_pd t1
  let mem ← _mm256_maskstore_pd mem (p + 4) (unionPdAsEpi64 x_pd) v.mVecHi
  pure (v, mem, p)

/-- The lane-by-lane conditional the spec compares MSTOREA with: for each lane in turn,
`if (mask[i] == true) p[i] = lane[i];`, the booleans `b0 .. b7` being the mask lanes. -/
def storeaLaneByLane (b0 b1 b2 b3 b4 b5 b6 b7 : Bool) (v : SIMDVec_f_64_8) (mem : Mem)
    (p : Nat) : Option (SIMDVec_f_64_8 × Mem × Nat) := do
  let mem ← mem.condWrite b0 p v.mVecLo.d0
  let mem ← mem.condWrite b1 (p + 1) v.mVecLo.d1
  let mem ← mem.condWrite b2 (p + 2) v.mVecLo.d2
  let mem ← mem.condWrite b3 (p + 3) v.mVecLo.d3
  let mem ← mem.condWrite b4 (p + 4) v.mVecHi.d0
  let mem ← mem.condWrite b5 (p + 5) v.mVecHi.d1
  let mem ← mem.condWrite b6 (p + 6) v.mVecHi.d2
  let mem ← mem.condWrite b7 (p + 7) v.mVecHi.d3
  pure (v, mem, p)

/-- ADDVA: `mVecLo = _mm256_add_pd(this->mVecLo, b.mVecLo); mVecHi =
_mm256_add_pd(this->mVecHi, b.mVecHi); return *this;`. The result is the receiver and the
argument `b` after the call. -/
def adda_ADDVA (add : Nat → Nat → Nat) (v b : SIMDVec_f_64_8) :
    SIMDVec_f_64_8 × SIMDVec_f_64_8 :=
  let v := { v with mVecLo := _mm256_add_pd add v.mVecLo b.mVecLo }
  let v := { v with mVecHi := _mm256_add_pd add v.mVecHi b.mVecHi }
  (v, b)

/-- ADDVA called as `v.adda(v)`: the argument is the receiver itself, so the second statement
reads `b.mVecHi` from the receiver after its `mVecLo` was assigned. -/
def adda_ADDVA_self (add : Nat → Nat → Nat) (v : SIMDVec_f_64_8) : SIMDVec_f_64_8 :=
  let v := { v with mVecLo := _mm256_add_pd add v.mVecLo v.mVecLo }
  let v := { v with mVecHi := _mm256_add_pd add v.mVecHi v.mVecHi }
  v

/-- ADDSA: `mVecLo = _mm256_add_pd(this->mVecLo, _mm256_set1_pd(b)); mVecHi =
_mm256_add_pd(this->mVecHi, _mm256_set1_pd(b)); return *this;`. The result is the receiver
after the call. -/
def adda_ADDSA (add : Nat → Nat → Nat) (v : SIMDVec_f_64_8) (b : Nat) : SIMDVec_f_64_8 :=
  let v := { v with mVecLo := _mm256_add_pd add v.mVecLo (_mm256_set1_pd b) }
  let v := { v with mVecHi := _mm256_add_pd add v.mVecHi (_mm256_set1_pd b) }
  v

end SIMDVec_f_64_8

/-! ## The trait table `SIMDVec_f_traits` (`plugins/avx512/float/UMESimdVecFloatPrototype.h`) -/

/-- The scalar C types the trait table names. -/
inductive CScalar where
  | float
  | double
  | int32_t
  | uint32_t
  | int64_t
  | uint64_t
deriving DecidableEq, Repr

/-- The width in bits of a scalar C type. -/
def CScalar.bits : CScalar → Nat
  | .float => 32
  | .double => 64
  | .int32_t => 32
  | .uint32_t => 32
  | .int64_t => 64
  | .uint64_t => 64

/-- The unsigned integer types among the scalar C types. -/
def CScalar.isUnsignedInt : CScalar → Bool
  | .uint32_t => true
  | .uint64_t => true
  | _ => false

/-- The signed integer types among the scalar C types. -/
def CScalar.isSignedInt : CScalar → Bool
  | .int32_t => true
  | .int64_t => true
  | _ => false

/-- The types a typedef of the trait table can denote. -/
inductive CType where
  | scalar (t : CScalar)
  | pointer (t : CScalar)
  | SIMDVec_f (t : CScalar) (n : Nat)
  | SIMDVec_u (t : CScalar) (n : Nat)
  | SIMDVec_i (t : CScalar) (n : Nat)
  | SIMDVecMask (n : Nat)
  | SIMDVecSwizzle (n : Nat)
deriving DecidableEq, Repr

/-- An instantiation `SIMDVec_f_traits<SCALAR_FLOAT_TYPE, VEC_LEN>`: its two template
arguments and, for each typedef name used in the header, the type it denotes or `none` when
the struct has no such member. -/
structure TraitRecord where
  SCALAR_FLOAT_TYPE : CScalar
  VEC_LEN : Nat
  HALF_LEN_VEC_TYPE : Option CType := none
  VEC_UINT_TYPE : Option CType := none
  VEC_INT_TYPE : Option CType := none
  SCALAR_INT_TYPE : Option CType := none
  SCALAR_UINT_TYPE : Option CType := none
  SCALAR_TYPE_PTR : Option CType := none
  MASK_TYPE : Option CType := none
  SWIZZLE_MASK_TYPE : Option CType := none
deriving DecidableEq, Repr

/-- The generic template `SIMDVec_f_traits`, whose body holds a comment and no typedef. -/
def SIMDVec_f_traits_generic (T : CScalar) (N : Nat) : TraitRecord :=
  { SCALAR_FLOAT_TYPE := T, VEC_LEN := N }

/-- The explicit specializations `template<> struct SIMDVec_f_traits<T, N>`, in the order of
the header. -/
def SIMDVec_f_traits_specializations : List TraitRecord :=
  [
    { SCALAR_FLOAT_TYPE := .float, VEC_LEN := 1,
      VEC_UINT_TYPE := some (.SIMDVec_u .uint32_t 1),
      VEC_INT_TYPE := some (.SIMDVec_i .int32_t 1),
      SCALAR_INT_TYPE := some (.scalar .int32_t),
      SCALAR_UINT_TYPE := some (.scalar .uint32_t),
      SCALAR_TYPE_PTR := some (.pointer .float),
      MASK_TYPE := some (.SIMDVecMask 1),
      SWIZZLE_MASK_TYPE := some (.SIMDVecSwizzle 1) },
    { SCALAR_FLOAT_TYPE := .float, VEC_LEN := 2,
      HALF_LEN_VEC_TYPE := some (.SIMDVec_f .float 1),
      VEC_UINT_TYPE := some (.SIMDVec_u .uint32_t 2),
      VEC_INT_TYPE := some (.SIMDVec_i .int32_t 2),
      SCALAR_INT_TYPE := some (.scalar .int32_t),
      SCALAR_UINT_TYPE := some (.scalar .uint32_t),
      SCALAR_TYPE_PTR := some (.pointer .float),
      MASK_TYPE := some (.SIMDVecMask 2),
      SWIZZLE_MASK_TYPE := some (.SIMDVecSwizzle 2) },
    { SCALAR_FLOAT_TYPE := .double, VEC_LEN := 1,
      VEC_UINT_TYPE := some (.SIMDVec_u .uint64_t 1),
      VEC_INT_TYPE := some (.SIMDVec_i .int64_t 1),
      SCALAR_INT_TYPE := some (.scalar .int64_t),
      SCALAR_UINT_TYPE := some (.scalar .uint64_t),
      SCALAR_TYPE_PTR := some (.pointer .double),
      MASK_TYPE := some (.SIMDVecMask 1),
      SWIZZLE_MASK_TYPE := some (.SIMDVecSwizzle 1) },
    { SCALAR_FLOAT_TYPE := .float, VEC_LEN := 4,
      HALF_LEN_VEC_TYPE := some (.SIMDVec_f .float 2),
      VEC_UINT_TYPE := some (.SIMDVec_u .uint32_t 4),
      VEC_INT_TYPE := some (.SIMDVec_i .int32_t 4),
      SCALAR_INT_TYPE := some (.scalar .int32_t),
      SCALAR_UINT_TYPE := some (.scalar .uint32_t),
      SCALAR_TYPE_PTR := some (.pointer .float),
      MASK_TYPE := some (.SIMDVecMask 4),
      SWIZZLE_MASK_TYPE := some (.SIMDVecSwizzle 4) },
    { SCALAR_FLOAT_TYPE := .double, VEC_LEN := 2,
      HALF_LEN_VEC_TYPE := some (.SIMDVec_f .double 1),
      VEC_UINT_TYPE := some (.SIMDVec_u .uint64_t 2),
      VEC_INT_TYPE := some (.SIMDVec_i .int64_t 2),
      SCALAR_INT_TYPE := some (.scalar .int64_t),
      SCALAR_UINT_TYPE := some (.scalar .uint64_t),
      SCALAR_TYPE_PTR := some (.pointer .double),
      MASK_TYPE := some (.SIMDVecMask 2),
      SWIZZLE_MASK_TYPE := some (.SIMDVecSwizzle 2) },
    { SCALAR_FLOAT_TYPE := .float, VEC_LEN := 8,
      HALF_LEN_VEC_TYPE := some (.SIMDVec_f .float 4),
      VEC_UINT_TYPE := some (.SIMDVec_u .uint32_t 8),
      VEC_INT_TYPE := some (.SIMDVec_i .int32_t 8),
      SCALAR_INT_TYPE := some (.scalar .int32_t),
      SCALAR_UINT_TYPE := some (.scalar .uint32_t),
      SCALAR_TYPE_PTR := some (.pointer .float),
      MASK_TYPE := some (.SIMDVecMask 8),
      SWIZZLE_MASK_TYPE := some (.SIMDVecSwizzle 8) },
    { SCALAR_FLOAT_TYPE := .double, VEC_LEN := 4,
      HALF_LEN_VEC_TYPE := some (.SIMDVec_f .double 2),
      VEC_UINT_TYPE := some (.SIMDVec_u .uint64_t 4),
      VEC_INT_TYPE := some (.SIMDVec_i .int64_t 4),
      SCALAR_INT_TYPE := some (.scalar .int64_t),
      SCALAR_UINT_TYPE := some (.scalar .uint64_t),
      SCALAR_TYPE_PTR := some (.pointer .double),
      MASK_TYPE := some (.SIMDVecMask 4),
      SWIZZLE_MASK_TYPE := some (.SIMDVecSwizzle 4) },
    { SCALAR_FLOAT_TYPE := .float, VEC_LEN := 16,
      HALF_LEN_VEC_TYPE := some (.SIMDVec_f .float 8),
      VEC_UINT_TYPE := some (.SIMDVec_u .uint32_t 16),
      VEC_INT_TYPE := some (.SIMDVec_i .int32_t 16),
      SCALAR_INT_TYPE := some (.scalar .int32_t),
      SCALAR_UINT_TYPE := some (.scalar .uint32_t),
      SCALAR_TYPE_PTR := some (.pointer .float),
      MASK_TYPE := some (.SIMDVecMask 16),
      SWIZZLE_MASK_TYPE := some (.SIMDVecSwizzle 16) },
    { SCALAR_FLOAT_TYPE := .double, VEC_LEN := 8,
      HALF_LEN_VEC_TYPE := some (.SIMDVec_f .double 4),
      VEC_UINT_TYPE := some (.SIMDVec_u .uint64_t 8),
      VEC_INT_TYPE := some (.SIMDVec_i .int64_t 8),
      SCALAR_INT_TYPE := some (.scalar .int64_t),
      SCALAR_UINT_TYPE := some (.scalar .uint64_t),
      SCALAR_TYPE_PTR := some (.pointer .double),
      MASK_TYPE := some (.SIMDVecMask 8),
      SWIZZLE_MASK_TYPE := some (.SIMDVecSwizzle 8) },
    { SCALAR_FLOAT_TYPE := .float, VEC_LEN := 32,
      HALF_LEN_VEC_TYPE := some (.SIMDVec_f .float 16),
      VEC_UINT_TYPE := some (.SIMDVec_u .uint32_t 32),
      VEC_INT_TYPE := some (.SIMDVec_i .int32_t 32),
      SCALAR_INT_TYPE := some (.scalar .int32_t),
      SCALAR_UINT_TYPE := some (.scalar .uint32_t),
      SCALAR_TYPE_PTR := some (.pointer .float),
      MASK_TYPE := some (.SIMDVecMask 32),
      SWIZZLE_MASK_TYPE := some (.SIMDVecSwizzle 32) },
    { SCALAR_FLOAT_TYPE := .double, VEC_LEN := 16,
      HALF_LEN_VEC_TYPE := some (.SIMDVec_f .double 8),
      VEC_UINT_TYPE := some (.SIMDVec_u .uint64_t 16),
      VEC_INT_TYPE := some (.SIMDVec_i .int64_t 16),
      SCALAR_INT_TYPE := some (.scalar .int64_t),
      SCALAR_UINT_TYPE := some (.scalar .uint64_t),
      SCALAR_TYPE_PTR := some (.pointer .double),
      MASK_TYPE := some (.SIMDVecMask 16),
      SWIZZLE_MASK_TYPE := some (.SIMDVecSwizzle 16) }
  ]

/-- Template instantiation `SIMDVec_f_traits<T, N>`: the explicit specialization for these
arguments when the header has one, the generic template otherwise. -/
def SIMDVec_f_traits (T : CScalar) (N : Nat) : TraitRecord :=
  match SIMDVec_f_traits_specializations.find?
      (fun r => r.SCALAR_FLOAT_TYPE == T && r.VEC_LEN == N) with
  | some r => r
  | none => SIMDVec_f_traits_generic T N

/-- Whether the header has an explicit specialization for `(T, N)`: a record of the table. -/
def hasTraitRecord (T : CScalar) (N : Nat) : Bool :=
  SIMDVec_f_traits_specializations.any (fun r => r.SCALAR_FLOAT_TYPE == T && r.VEC_LEN == N)

/-- The template arguments of the half-width vector type of `SIMDVec_f_traits<T, N>`, when its
`HALF_LEN_VEC_TYPE` is a `SIMDVec_f`. -/
def halfLenVec (T : CScalar) (N : Nat) : Option (CScalar × Nat) :=
  match (SIMDVec_f_traits T N).HALF_LEN_VEC_TYPE with
  | some (CType.SIMDVec_f T2 N2) => some (T2, N2)
  | _ => none

/-- Taking the half-width type `k` times in a row, starting from `(T, N)`. -/
def halfLenVecIter : Nat → CScalar × Nat → Option (CScalar × Nat)
  | 0, key => some key
  | k + 1, key => (halfLenVec key.1 key.2).bind (halfLenVecIter k)

/-! ## Class declarations: base classes and masked signatures -/

/-- The template arguments of a `SIMDVecFloatInterface` base; an argument written
`typename SIMDVec_f_traits<T, N>::NAME` is `none` when the trait struct has no such member. -/
structure FloatInterfaceArgs where
  DERIVED : CType
  VEC_UINT_TYPE : Option CType
  VEC_INT_TYPE : Option CType
  SCALAR_FLOAT_TYPE : CScalar
  VEC_LEN : Nat
  SCALAR_UINT_TYPE : Option CType
  MASK_TYPE : Option CType
  SWIZZLE_MASK_TYPE : Option CType
deriving DecidableEq, Repr

/-- A base class in the base list of a vector class. -/
inductive BaseClass where
  | SIMDVecUnsignedInterface (derived : CType) (scalar : CScalar) (vecLen : Nat)
      (mask : CType) (swizzle : CType)
  | SIMDVecFloatInterface (args : FloatInterfaceArgs)
  | SIMDVecPackableInterface (derived : CType) (halfLen : Option CType)
deriving DecidableEq, Repr

/-- Whether a base class is an instance of `SIMDVecPackableInterface`. -/
def BaseClass.isPackable : BaseClass → Bool
  | .SIMDVecPackableInterface _ _ => true
  | _ => false

/-- The `SIMDVecFloatInterface` base of the prototype `SIMDVec_f<T, N>`, every helper type
taken from `SIMDVec_f_traits<T, N>`. -/
def SIMDVec_f_proto_floatInterface (T : CScalar) (N : Nat) : BaseClass :=
  .SIMDVecFloatInterface
    { DERIVED := .SIMDVec_f T N,
      VEC_UINT_TYPE := (SIMDVec_f_traits T N).VEC_UINT_TYPE,
      VEC_INT_TYPE := (SIMDVec_f_traits T N).VEC_INT_TYPE,
      SCALAR_FLOAT_TYPE := T,
      VEC_LEN := N,
      SCALAR_UINT_TYPE := (SIMDVec_f_traits T N).SCALAR_UINT_TYPE,
      MASK_TYPE := (SIMDVec_f_traits T N).MASK_TYPE,
      SWIZZLE_MASK_TYPE := (SIMDVec_f_traits T N).SWIZZLE_MASK_TYPE }

/-- The base list of the generic prototype `template<T, N> class SIMDVec_f`. -/
def SIMDVec_f_proto_generic_bases (T : CScalar) (N : Nat) : List BaseClass :=
  [SIMDVec_f_proto_floatInterface T N,
   .SIMDVecPackableInterface (.SIMDVec_f T N) (SIMDVec_f_traits T N).HALF_LEN_VEC_TYPE]

/-- The base list of the partial specialization `template<T> class SIMDVec_f<T, 1>`. -/
def SIMDVec_f_proto_len1_bases (T : CScalar) : List BaseClass :=
  [SIMDVec_f_proto_floatInterface T 1]

/-- The base list of the prototype class `SIMDVec_f<T, N>` after template selection: the
partial specialization for `N = 1`, the generic template otherwise. -/
def SIMDVec_f_proto_bases (T : CScalar) (N : Nat) : List BaseClass :=
  if N = 1 then SIMDVec_f_proto_len1_bases T else SIMDVec_f_proto_generic_bases T N

/-- The base list of `SIMDVec_u<uint32_t, 2>` (`UMESimdVecUint32_2.h`). -/
def SIMDVec_u_32_2_bases : List BaseClass :=
  [.SIMDVecUnsignedInterface (.SIMDVec_u .uint32_t 2) .uint32_t 2 (.SIMDVecMask 2)
     (.SIMDVecSwizzle 2),
   .SIMDVecPackableInterface (.SIMDVec_u .uint32_t 2) (some (.SIMDVec_u .uint32_t 1))]

/-- The masked member functions of `SIMDVec_u<uint32_t, 2>`, each with the type of its mask
parameter. -/
def SIMDVec_u_32_2_maskedOps : List (String × CType) :=
  [("operator[]", .SIMDVecMask 2),
   ("MPREFINC", .SIMDVecMask 2),
   ("MGATHERS", .SIMDVecMask 2),
   ("MGATHERV", .SIMDVecMask 2),
   ("MSCATTERS", .SIMDVecMask 2),
   ("MSCATTERV", .SIMDVecMask 2)]

/-- The base list of the AVX `SIMDVec_f<double, 8>` (`UMESimdVecFloat64_8.h`). -/
def SIMDVec_f_64_8_bases : List BaseClass :=
  [.SIMDVecFloatInterface
     { DERIVED := .SIMDVec_f .double 8,
       VEC_UINT_TYPE := some (.SIMDVec_u .uint64_t 8),
       VEC_INT_TYPE := some (.SIMDVec_i .int64_t 8),
       SCALAR_FLOAT_TYPE := .double,
       VEC_LEN := 8,
       SCALAR_UINT_TYPE := some (.scalar .uint64_t),
       MASK_TYPE := some (.SIMDVecMask 8),
       SWIZZLE_MASK_TYPE := some (.SIMDVecSwizzle 4) },
   .SIMDVecPackableInterface (.SIMDVec_f .double 8) (some (.SIMDVec_f .double 4))]

/-- The masked member functions of the AVX `SIMDVec_f<double, 8>`, each with the type of its
mask parameter. -/
def SIMDVec_f_64_8_maskedOps : List (String × CType) :=
  [("operator[]", .SIMDVecMask 8),
   ("MLOADA", .SIMDVecMask 8),
   ("MSTOREA", .SIMDVecMask 8)]

/-! ## The prototype `SIMDVec_f<T, N>` (`UMESimdVecFloatPrototype.h`) -/

/-- Modelled from the spec: `SIMDVecEmuRegister<T, N>` is declared outside the given sources;
the spec describes the scalar register emulation as a plain fixed-size array of scalar
values. The lane count is the number of cells. -/
structure SIMDVecEmuRegister where
  cells : List Nat
deriving DecidableEq, Repr

namespace SIMDVecEmuRegister

/-- Modelled from the spec: `SIMDVecEmuRegister::insert(index, value)` is declared outside the
given sources; on a plain fixed-size array it stores `value` in cell `index`, and the array
has no cell at or beyond the lane count. -/
def insert (reg : SIMDVecEmuRegister) (index : Nat) (value : Nat) : Option SIMDVecEmuRegister :=
  if index < reg.cells.length then some { cells := reg.cells.set index value } else none

/-- A sequence of `insert(index, value)` calls, in program order. -/
def insertAll : SIMDVecEmuRegister → List (Nat × Nat) → Option SIMDVecEmuRegister
  | reg, [] => some reg
  | reg, (index, value) :: rest => (reg.insert index value).bind fun r => insertAll r rest

end SIMDVecEmuRegister

/-- Storage of the prototype `SIMDVec_f<T, N>`: the member `VEC_EMU_REG mVec`. -/
structure SIMDVec_f_proto where
  mVec : SIMDVecEmuRegister
deriving DecidableEq, Repr

namespace SIMDVec_f_proto

/-- UTOF, `SIMDVec_f(VEC_UINT_TYPE const & vecUint)`: the body is empty, so the object is its
default-initialised member `mVec`; `vecUint` holds the lanes of the argument. -/
def ofVecUint (mVec : SIMDVecEmuRegister) (_vecUint : List Nat) : SIMDVec_f_proto :=
  { mVec := mVec }

/-- ITOF, `SIMDVec_f(VEC_INT_TYPE const & vecInt)`: the body is empty, so the object is its
default-initialised member `mVec`; `vecInt` holds the lanes of the argument. -/
def ofVecInt (mVec : SIMDVecEmuRegister) (_vecInt : List Int) : SIMDVec_f_proto :=
  { mVec := mVec }

/-- The constructor of 2 scalars: `mVec.insert(0, i0); ... mVec.insert(1, i1);` on the
default-initialised member `mVec`. -/
def ofScalars2 (mVec : SIMDVecEmuRegister)
    (i0 i1 : Nat) : Option SIMDVec_f_proto :=
  (mVec.insertAll
    [(0, i0), (1, i1)]).map
    fun r => { mVec := r }

/-- The constructor of 4 scalars: `mVec.insert(0, i0); ... mVec.insert(3, i3);` on the
default-initialised member `mVec`. -/
def ofScalars4 (mVec : SIMDVecEmuRegister)
    (i0 i1 i2 i3 : Nat) : Option SIMDVec_f_proto :=
  (mVec.insertAll
    [(0, i0), (1, i1), (2, i2), (3, i3)]).map
    fun r => { mVec := r }

/-- The constructor of 8 scalars: `mVec.insert(0, i0); ... mVec.insert(7, i7);` on the
default-initialised member `mVec`. -/
def ofScalars8 (mVec : SIMDVecEmuRegister)
    (i0 i1 i2 i3 i4 i5 i6 i7 : Nat) : Option SIMDVec_f_proto :=
  (mVec.insertAll
    [(0, i0), (1, i1), (2, i2), (3, i3), (4, i4), (5, i5), (6, i6), (7, i7)]).map
    fun r => { mVec := r }

/-- The constructor of 16 scalars: `mVec.insert(0, i0); ... mVec.insert(15, i15);` on the
default-initialised member `mVec`. -/
def ofScalars16 (mVec : SIMDVecEmuRegister)
    (i0 i1 i2 i3 i4 i5 i6 i7 i8 i9 i10 i11 i12 i13 i14 i15 : Nat) : Option SIMDVec_f_proto :=
  (mVec.insertAll
    [(0, i0), (1, i1), (2, i2), (3, i3), (4, i4), (5, i5), (6, i6), (7, i7), (8, i8),
     (9, i9), (10, i10), (11, i11), (12, i12), (13, i13), (14, i14), (15, i15)]).map
    fun r => { mVec := r }

/-- The constructor of 32 scalars: `mVec.insert(0, i0); ... mVec.insert(31, i31);` on the
default-initialised member `mVec`. -/
def ofScalars32 (mVec : SIMDVecEmuRegister)
    (i0 i1 i2 i3 i4 i5 i6 i7 i8 i9 i10 i11 i12 i13 i14 i15 i16 i17 i18 i19 i20 i21
     i22 i23 i24 i25 i26 i27 i28 i29 i30 i31 : Nat) : Option SIMDVec_f_proto :=
  (mVec.insertAll
    [(0, i0), (1, i1), (2, i2), (3, i3), (4, i4), (5, i5), (6, i6), (7, i7), (8, i8),
     (9, i9), (10, i10), (11, i11), (12, i12), (13, i13), (14, i14), (15, i15), (16,
     i16), (17, i17), (18, i18), (19, i19), (20, i20), (21, i21), (22, i22), (23, i23),
     (24, i24), (25, i25), (26, i26), (27, i27), (28, i28), (29, i29), (30, i30), (31,
     i31)]).map
    fun r => { mVec := r }

/-- The numbers of arguments of the multi-scalar constructors `SIMDVec_f<T, N>` offers: the
generic template declares five of them whatever `N` is, the specialization for `N = 1`
declares none. -/
def ctorArities (N : Nat) : List Nat :=
  if N = 1 then [] else [2, 4, 8, 16, 32]

end SIMDVec_f_proto

/-! ## Calls of const member functions -/

/-- The call `v.extract(index)` of `SIMDVec_u<uint32_t, 2>` as its caller sees it: the
receiver after the call and the value returned. The function is `const`. -/
def SIMDVec_u_32_2.extract_call (v : SIMDVec_u_32_2) (index : Nat) :
    Option (SIMDVec_u_32_2 × Nat) :=
  (v.extract index).map fun x => (v, x)

/-- The call `v[index]` of `SIMDVec_u<uint32_t, 2>`: receiver after the call and value. -/
def SIMDVec_u_32_2.subscript_call (v : SIMDVec_u_32_2) (index : Nat) :
    Option (SIMDVec_u_32_2 × Nat) :=
  (v.subscript index).map fun x => (v, x)

/-- The call `v.unique()` of `SIMDVec_u<uint32_t, 2>`: receiver after the call and value. -/
def SIMDVec_u_32_2.unique_call (v : SIMDVec_u_32_2) : SIMDVec_u_32_2 × Bool :=
  (v, v.unique)

/-- The call `v.extract(index)` of the AVX `SIMDVec_f<double, 8>`: receiver after the call
and value. The function is `const`; it writes only its local array `raw`. -/
def SIMDVec_f_64_8.extract_call (v : SIMDVec_f_64_8) (index : Nat) :
    Option (SIMDVec_f_64_8 × Nat) :=
  (v.extract index).map fun x => (v, x)

/-- The call `v[index]` of the AVX `SIMDVec_f<double, 8>`: receiver after the call and
value. -/
def SIMDVec_f_64_8.subscript_call (v : SIMDVec_f_64_8) (index : Nat) :
    Option (SIMDVec_f_64_8 × Nat) :=
  (v.subscript index).map fun x => (v, x)

/-! ## Theorems -/

/-- Subscripting with `index & 1` always lands on one of the two cells. -/
theorem and_one_cases (i : Nat) : i &&& 1 = 0 ∨ i &&& 1 = 1 := by
  rw [Nat.and_one_is_mod]; omega

/-- C1: on `SIMDVec_u<uint32_t,2>`, for every vector, index and value, `insert(i, x)` succeeds,
a following `extract(i)` returns `x`, and the lane at index `(i+1) mod 2` reads as before. -/
theorem C1_insert_extract (v : SIMDVec_u_32_2) (i x : Nat) :
    ∃ w, v.insert i x = some w ∧ w.extract i = some x ∧
      w.extract ((i + 1) % 2) = v.extract ((i + 1) % 2) ∧
      (w.extract ((i + 1) % 2)).isSome := by
  have h1 : (i + 1) % 2 &&& 1 = (i + 1) % 2 := by
    rw [Nat.and_one_is_mod]; omega
  rcases Nat.mod_two_eq_zero_or_one i with h | h
  · have h0 : i &&& 1 = 0 := by rw [Nat.and_one_is_mod]; exact h
    have h2 : (i + 1) % 2 = 1 := by omega
    refine ⟨{ v with mVec0 := x }, ?_, ?_, ?_, ?_⟩ <;>
      simp [SIMDVec_u_32_2.insert, SIMDVec_u_32_2.extract, SIMDVec_u_32_2.mVecWrite,
        SIMDVec_u_32_2.mVecRead, h0, h1, h2]
  · have h0 : i &&& 1 = 1 := by rw [Nat.and_one_is_mod]; exact h
    have h2 : (i + 1) % 2 = 0 := by omega
    refine ⟨{ v with mVec1 := x }, ?_, ?_, ?_, ?_⟩ <;>
      simp [SIMDVec_u_32_2.insert, SIMDVec_u_32_2.extract, SIMDVec_u_32_2.mVecWrite,
        SIMDVec_u_32_2.mVecRead, h0, h1, h2]

/-! ### Memory and register lemmas -/

theorem Mem.write_eq_some {mem : Mem} {k : Nat} (x : Nat) (h : k < mem.length) :
    mem.write k x = some (mem.set k x) := by
  simp [Mem.write, h]

theorem storeu_eq_some {mem : Mem} {p : Nat} (a : M256d) (h : p + 4 ≤ mem.length) :
    _mm256_storeu_pd mem p a =
      some ((((mem.set p a.d0).set (p + 1) a.d1).set (p + 2) a.d2).set (p + 3) a.d3) := by
  have h0 : p < mem.length := by omega
  have h1 : p + 1 < mem.length := by omega
  have h2 : p + 2 < mem.length := by omega
  have h3 : p + 3 < mem.length := by omega
  simp [_mm256_storeu_pd, Mem.write, h0, h1, h2, h3]

theorem loadu_eq_some {mem : Mem} {p : Nat} {a : M256d}
    (h0 : mem[p]? = some a.d0) (h1 : mem[p + 1]? = some a.d1)
    (h2 : mem[p + 2]? = some a.d2) (h3 : mem[p + 3]? = some a.d3) :
    _mm256_loadu_pd mem p = some a := by
  simp [_mm256_loadu_pd, h0, h1, h2, h3]

/-- Reading a cell after the four stores of `_mm256_storeu_pd`. -/
theorem getElem?_storeu {mem : Mem} {p : Nat} (a : M256d) (h : p + 4 ≤ mem.length) (k : Nat) :
    ((((mem.set p a.d0).set (p + 1) a.d1).set (p + 2) a.d2).set (p + 3) a.d3)[k]? =
      if k = p then some a.d0 else if k = p + 1 then some a.d1
      else if k = p + 2 then some a.d2 else if k = p + 3 then some a.d3 else mem[k]? := by
  simp only [List.getElem?_set, List.length_set]
  split_ifs <;> first | rfl | omega

/-- For a lane index below 8, `extract` reads that lane. -/
theorem extract_eq_lanes (v : SIMDVec_f_64_8) (j : Nat) (h : j < 8) :
    v.extract j = v.lanes[j]? := by
  interval_cases j <;>
    simp [SIMDVec_f_64_8.extract, SIMDVec_f_64_8.rawScratch, _mm256_store_pd, _mm256_storeu_pd,
      Mem.write, SIMDVec_f_64_8.lanes]

/-- For a lane index below 8, `insert` succeeds and overwrites exactly that lane. -/
theorem insert_lanes (v : SIMDVec_f_64_8) (i x : Nat) (h : i < 8) :
    ∃ w, v.insert i x = some w ∧ w.lanes = v.lanes.set i x := by
  interval_cases i <;>
    simp [SIMDVec_f_64_8.insert, SIMDVec_f_64_8.rawScratch, _mm256_store_pd, _mm256_storeu_pd,
      _mm256_load_pd, _mm256_loadu_pd, Mem.write, SIMDVec_f_64_8.lanes]

theorem lanes_length (v : SIMDVec_f_64_8) : v.lanes.length = 8 := rfl

/-! ### Insert and extract on `SIMDVec_f<double, 8>` -/

/-- C2: on the AVX `SIMDVec_f<double,8>`, for every vector, lane index `i < 8` and value `x`,
`insert(i, x)` succeeds, a following `extract(i)` returns `x`, and every other lane `j < 8`
(of either sub-register) still extracts the value it had before. -/
theorem C2_insert_extract (v : SIMDVec_f_64_8) (i x : Nat) (hi : i < 8) :
    ∃ w, v.insert i x = some w ∧ w.extract i = some x ∧
      (∀ j, j < 8 → j ≠ i → w.extract j = v.extract j ∧ (v.extract j).isSome) ∧
      w.lanes = v.lanes.set i x := by
  obtain ⟨w, hw, hl⟩ := insert_lanes v i x hi
  refine ⟨w, hw, ?_, ?_, hl⟩
  · rw [extract_eq_lanes w i hi, hl, List.getElem?_set]
    simp [lanes_length, hi]
  · intro j hj hji
    rw [extract_eq_lanes w j hj, extract_eq_lanes v j hj, hl,
      List.getElem?_set_ne (Ne.symm hji)]
    refine ⟨rfl, ?_⟩
    rw [List.getElem?_eq_getElem (by rw [lanes_length]; exact hj)]
    rfl

/-- C2 at lane 6 of the vector (1, ..., 8). -/
theorem C2_insert_extract_witness :
    (6 < 8) ∧ ∃ w, (SIMDVec_f_64_8.ofScalars 1 2 3 4 5 6 7 8).insert 6 99 = some w ∧
      w.extract 6 = some 99 ∧
      (∀ j, j < 8 → j ≠ 6 → w.extract j = (SIMDVec_f_64_8.ofScalars 1 2 3 4 5 6 7 8).extract j ∧
        ((SIMDVec_f_64_8.ofScalars 1 2 3 4 5 6 7 8).extract j).isSome) ∧
      w.lanes = (SIMDVec_f_64_8.ofScalars 1 2 3 4 5 6 7 8).lanes.set 6 99 :=
  ⟨by decide, C2_insert_extract (SIMDVec_f_64_8.ofScalars 1 2 3 4 5 6 7 8) 6 99 (by decide)⟩

/-! ### Store and load on `SIMDVec_f<double, 8>` -/

/-- The memory left by storing the eight lanes of `v` at `p`. -/
theorem store_eq_some (v : SIMDVec_f_64_8) (mem : Mem) (p : Nat) (hp : p + 8 ≤ mem.length) :
    ∃ mem2, v.store mem p = some (v, mem2, p) ∧ mem2.length = mem.length ∧
      (∀ i, i < 8 → mem2[p + i]? = v.lanes[i]?) ∧
      (∀ k, k < p ∨ p + 8 ≤ k → mem2[k]? = mem[k]?) := by
  have h1 : p + 4 ≤ mem.length := by omega
  have h2 : p + 4 + 4 ≤
      ((((mem.set p v.mVecLo.d0).set (p + 1) v.mVecLo.d1).set (p + 2) v.mVecLo.d2).set
        (p + 3) v.mVecLo.d3).length := by
    simp only [List.length_set]; omega
  refine ⟨((((((((mem.set p v.mVecLo.d0).set (p + 1) v.mVecLo.d1).set (p + 2) v.mVecLo.d2).set
      (p + 3) v.mVecLo.d3).set (p + 4) v.mVecHi.d0).set (p + 4 + 1) v.mVecHi.d1).set
      (p + 4 + 2) v.mVecHi.d2).set (p + 4 + 3) v.mVecHi.d3), ?_, ?_, ?_, ?_⟩
  · simp only [SIMDVec_f_64_8.store, storeu_eq_some _ h1, storeu_eq_some _ h2,
      Option.bind_eq_bind, Option.some_bind, Option.pure_def]
  · simp only [List.length_set]
  · intro i hi
    rw [getElem?_storeu _ h2, getElem?_storeu _ h1]
    interval_cases i <;> simp [SIMDVec_f_64_8.lanes]
    split_ifs <;> first | rfl | omega
  · intro k hk
    rw [getElem?_storeu _ h2, getElem?_storeu _ h1]
    split_ifs <;> first | rfl | omega

/-- Loading eight cells that hold the lanes of `v` gives `v`, whatever the receiver held. -/
theorem load_eq_some (v w : SIMDVec_f_64_8) (mem : Mem) (p : Nat)
    (h : ∀ i, i < 8 → mem[p + i]? = v.lanes[i]?) : w.load mem p = some v := by
  have e0 := h 0 (by decide)
  have e1 := h 1 (by decide)
  have e2 := h 2 (by decide)
  have e3 := h 3 (by decide)
  have e4 := h 4 (by decide)
  have e5 := h 5 (by decide)
  have e6 := h 6 (by decide)
  have e7 := h 7 (by decide)
  simp only [SIMDVec_f_64_8.lanes, List.getElem?_cons_zero, List.getElem?_cons_succ,
    Nat.add_zero] at e0 e1 e2 e3 e4 e5 e6 e7
  have hlo : _mm256_loadu_pd mem p = some v.mVecLo := loadu_eq_some e0 e1 e2 e3
  have hhi : _mm256_loadu_pd mem (p + 4) = some v.mVecHi := loadu_eq_some e4 e5 e6 e7
  simp [SIMDVec_f_64_8.load, hlo, hhi]

/-- On a 32-byte boundary the aligned store is the unaligned store. -/
theorem storea_eq_store (v : SIMDVec_f_64_8) (mem : Mem) (p : Nat) (ha : p % 4 = 0) :
    v.storea mem p = v.store mem p := by
  have ha4 : (p + 4) % 4 = 0 := by omega
  simp [SIMDVec_f_64_8.storea, SIMDVec_f_64_8.store, _mm256_store_pd, ha, ha4]

/-- On a 32-byte boundary the aligned load is the unaligned load. -/
theorem loada_eq_load (w : SIMDVec_f_64_8) (mem : Mem) (p : Nat) (ha : p % 4 = 0) :
    w.loada mem p = w.load mem p := by
  have ha4 : (p + 4) % 4 = 0 := by omega
  simp [SIMDVec_f_64_8.loada, SIMDVec_f_64_8.load, _mm256_load_pd, ha, ha4]

/-- Off a 32-byte boundary the aligned store and the aligned load fault. -/
theorem aligned_access_faults (v : SIMDVec_f_64_8) (mem : Mem) (p : Nat) (ha : p % 4 ≠ 0) :
    v.storea mem p = none ∧ v.loada mem p = none := by
  simp [SIMDVec_f_64_8.storea, SIMDVec_f_64_8.loada, _mm256_store_pd, _mm256_load_pd, ha]

/-- C3: on the AVX `SIMDVec_f<double,8>`, for every vector `v` and every buffer of eight
doubles at `p`, `v.store(p)` succeeds, returns `p`, leaves `v` as it was and writes lane `i` of
`v` to `p[i]`; a following `w.load(p)` on any vector `w` makes `w` equal to `v`. On a buffer
that starts on a 32-byte boundary the pair `storea` / `loada` does the same. -/
theorem C3_store_load_roundtrip (v w : SIMDVec_f_64_8) (mem : Mem) (p : Nat)
    (hp : p + 8 ≤ mem.length) :
    ∃ mem2, v.store mem p = some (v, mem2, p) ∧ w.load mem2 p = some v ∧
      (∀ i, i < 8 → mem2[p + i]? = v.extract i ∧ (v.extract i).isSome) ∧
      (p % 4 = 0 → v.storea mem p = some (v, mem2, p) ∧ w.loada mem2 p = some v) := by
  obtain ⟨mem2, hst, -, hcells, -⟩ := store_eq_some v mem p hp
  have hld : w.load mem2 p = some v := load_eq_some v w mem2 p hcells
  refine ⟨mem2, hst, hld, ?_, ?_⟩
  · intro i hi
    rw [extract_eq_lanes v i hi, hcells i hi]
    refine ⟨rfl, ?_⟩
    rw [List.getElem?_eq_getElem (by rw [lanes_length]; exact hi)]
    rfl
  · intro ha
    rw [storea_eq_store v mem p ha, loada_eq_load w mem2 p ha]
    exact ⟨hst, hld⟩

/-- C3 at the vector (1, ..., 8) stored at cell 4 of a zeroed memory of 12 cells. -/
theorem C3_store_load_roundtrip_witness :
    (4 + 8 ≤ (List.replicate 12 0 : Mem).length) ∧
    ∃ mem2, (SIMDVec_f_64_8.ofScalars 1 2 3 4 5 6 7 8).store (List.replicate 12 0) 4 =
        some (SIMDVec_f_64_8.ofScalars 1 2 3 4 5 6 7 8, mem2, 4) ∧
      (SIMDVec_f_64_8.ofScalar 0).load mem2 4 = some (SIMDVec_f_64_8.ofScalars 1 2 3 4 5 6 7 8) ∧
      (∀ i, i < 8 → mem2[4 + i]? = (SIMDVec_f_64_8.ofScalars 1 2 3 4 5 6 7 8).extract i ∧
        ((SIMDVec_f_64_8.ofScalars 1 2 3 4 5 6 7 8).extract i).isSome) ∧
      (4 % 4 = 0 →
        (SIMDVec_f_64_8.ofScalars 1 2 3 4 5 6 7 8).storea (List.replicate 12 0) 4 =
          some (SIMDVec_f_64_8.ofScalars 1 2 3 4 5 6 7 8, mem2, 4) ∧
        (SIMDVec_f_64_8.ofScalar 0).loada mem2 4 =
          some (SIMDVec_f_64_8.ofScalars 1 2 3 4 5 6 7 8)) :=
  ⟨by decide, C3_store_load_roundtrip (SIMDVec_f_64_8.ofScalars 1 2 3 4 5 6 7 8)
    (SIMDVec_f_64_8.ofScalar 0) (List.replicate 12 0) 4 (by decide)⟩

/-! ### Gather and scatter on `SIMDVec_u<uint32_t, 2>` -/

@[simp] theorem subscript_zero (v : SIMDVec_u_32_2) : v.subscript 0 = some v.mVec0 := rfl

@[simp] theorem subscript_one (v : SIMDVec_u_32_2) : v.subscript 1 = some v.mVec1 := rfl

/-- C4: on `SIMDVec_u<uint32_t,2>`, for every base memory and every pair of indices that are in
range (`base[i0]` is the cell holding `x0`, `base[i1]` the cell holding `x1`), GATHERS and
GATHERV succeed, leave the receiver equal to `[x0, x1]` (lane `i` is `base[indices[i]]`) and
leave the memory as it was; GATHERV gives the same when the index vector is the receiver. -/
theorem C4_gather (v : SIMDVec_u_32_2) (mem : Mem) (baseAddr i0 i1 x0 x1 : Nat)
    (rest : List Nat) (h0 : mem[baseAddr + i0]? = some x0) (h1 : mem[baseAddr + i1]? = some x1) :
    v.gather_GATHERS mem baseAddr (i0 :: i1 :: rest) = some ({ mVec0 := x0, mVec1 := x1 }, mem) ∧
    v.gather_GATHERV mem baseAddr { mVec0 := i0, mVec1 := i1 } =
      some ({ mVec0 := x0, mVec1 := x1 }, mem) ∧
    SIMDVec_u_32_2.gather_GATHERV_self { mVec0 := i0, mVec1 := i1 } mem baseAddr =
      some ({ mVec0 := x0, mVec1 := x1 }, mem) := by
  refine ⟨?_, ?_, ?_⟩ <;>
    simp [SIMDVec_u_32_2.gather_GATHERS, SIMDVec_u_32_2.gather_GATHERV,
      SIMDVec_u_32_2.gather_GATHERV_self, h0, h1]

/-- C4 at the spec's example: base `[10,20,30,40]`, indices `[3,1]`, result `[40,20]`. -/
theorem C4_gather_witness :
    (([10, 20, 30, 40] : Mem)[0 + 3]? = some 40 ∧ ([10, 20, 30, 40] : Mem)[0 + 1]? = some 20) ∧
    ((SIMDVec_u_32_2.ofScalar 0).gather_GATHERS [10, 20, 30, 40] 0 [3, 1] =
        some ({ mVec0 := 40, mVec1 := 20 }, [10, 20, 30, 40]) ∧
      (SIMDVec_u_32_2.ofScalar 0).gather_GATHERV [10, 20, 30, 40] 0 { mVec0 := 3, mVec1 := 1 } =
        some ({ mVec0 := 40, mVec1 := 20 }, [10, 20, 30, 40]) ∧
      SIMDVec_u_32_2.gather_GATHERV_self { mVec0 := 3, mVec1 := 1 } [10, 20, 30, 40] 0 =
        some ({ mVec0 := 40, mVec1 := 20 }, [10, 20, 30, 40])) :=
  ⟨⟨by decide, by decide⟩,
    C4_gather (SIMDVec_u_32_2.ofScalar 0) [10, 20, 30, 40] 0 3 1 40 20 [] (by decide) (by decide)⟩

/-- C5 fails when the two indices coincide: scattering `[40,20]` with indices `[1,1]` into a
zeroed buffer leaves `base[1] = 20`, so the cell `base[indices[0]]` does not hold lane 0. -/
theorem C5_scatter_collision :
    (SIMDVec_u_32_2.ofScalars 40 20).scatter_SCATTERS [0, 0, 0, 0] 0 [1, 1] =
      some (SIMDVec_u_32_2.ofScalars 40 20, [0, 20, 0, 0], 0) ∧
    (SIMDVec_u_32_2.ofScalars 40 20).scatter_SCATTERV [0, 0, 0, 0] 0
        (SIMDVec_u_32_2.ofScalars 1 1) =
      some (SIMDVec_u_32_2.ofScalars 40 20, [0, 20, 0, 0], 0) ∧
    ([0, 20, 0, 0] : Mem)[0 + 1]? ≠ some (SIMDVec_u_32_2.ofScalars 40 20).mVec0 := by
  decide

/-- C5 (amended): for every vector, base memory and pair of in-range indices, SCATTERS and
SCATTERV succeed with the same memory, in which `base[indices[1]]` holds lane 1 and, when the
two indices differ, `base[indices[0]]` holds lane 0 (when they coincide that one cell holds
lane 1, stored last). -/
theorem C5_scatter_amended (v : SIMDVec_u_32_2) (mem : Mem) (baseAddr i0 i1 : Nat)
    (rest : List Nat) (h0 : baseAddr + i0 < mem.length) (h1 : baseAddr + i1 < mem.length) :
    ∃ mem2, v.scatter_SCATTERS mem baseAddr (i0 :: i1 :: rest) = some (v, mem2, baseAddr) ∧
      v.scatter_SCATTERV mem baseAddr { mVec0 := i0, mVec1 := i1 } = some (v, mem2, baseAddr) ∧
      mem2[baseAddr + i1]? = some v.mVec1 ∧
      (i0 ≠ i1 → mem2[baseAddr + i0]? = some v.mVec0) := by
  refine ⟨(mem.set (baseAddr + i0) v.mVec0).set (baseAddr + i1) v.mVec1, ?_, ?_, ?_, ?_⟩
  · simp [SIMDVec_u_32_2.scatter_SCATTERS, Mem.write, h0, h1]
  · simp [SIMDVec_u_32_2.scatter_SCATTERV, Mem.write, h0, h1]
  · simp [List.getElem?_set, h1]
  · intro hne
    simp [List.getElem?_set, h0, hne, Ne.symm hne]

/-- C5 (amended) at the spec's example: `[40,20]`, indices `[3,1]`, a zeroed buffer. -/
theorem C5_scatter_amended_witness :
    (0 + 3 < ([0, 0, 0, 0] : Mem).length ∧ 0 + 1 < ([0, 0, 0, 0] : Mem).length) ∧
    ∃ mem2, (SIMDVec_u_32_2.ofScalars 40 20).scatter_SCATTERS [0, 0, 0, 0] 0 [3, 1] =
        some (SIMDVec_u_32_2.ofScalars 40 20, mem2, 0) ∧
      (SIMDVec_u_32_2.ofScalars 40 20).scatter_SCATTERV [0, 0, 0, 0] 0
          { mVec0 := 3, mVec1 := 1 } = some (SIMDVec_u_32_2.ofScalars 40 20, mem2, 0) ∧
      mem2[0 + 1]? = some (SIMDVec_u_32_2.ofScalars 40 20).mVec1 ∧
      (3 ≠ 1 → mem2[0 + 3]? = some (SIMDVec_u_32_2.ofScalars 40 20).mVec0) :=
  ⟨⟨by decide, by decide⟩,
    C5_scatter_amended (SIMDVec_u_32_2.ofScalars 40 20) [0, 0, 0, 0] 0 3 1 []
      (by decide) (by decide)⟩

/-- The spec's scatter example evaluated: `[40,20]` with indices `[3,1]` into `[0,0,0,0]`
gives `[0,20,0,40]`, by either form. -/
theorem scatter_example :
    (SIMDVec_u_32_2.ofScalars 40 20).scatter_SCATTERS [0, 0, 0, 0] 0 [3, 1] =
      some (SIMDVec_u_32_2.ofScalars 40 20, [0, 20, 0, 40], 0) ∧
    (SIMDVec_u_32_2.ofScalars 40 20).scatter_SCATTERV [0, 0, 0, 0] 0
        (SIMDVec_u_32_2.ofScalars 3 1) =
      some (SIMDVec_u_32_2.ofScalars 40 20, [0, 20, 0, 40], 0) := by
  decide

/-- C6: for the four scatter forms of `SIMDVec_u<uint32_t,2>` and in-range indices, the call
succeeds, the receiver is as before, the returned pointer is `baseAddr`, the memory keeps its
size, and every cell other than `base[indices[0]]` and `base[indices[1]]` holds the value it
held before. -/
theorem C6_scatter_frame (mask : SIMDVecMask2) (v indices : SIMDVec_u_32_2) (mem : Mem)
    (baseAddr : Nat) (rest : List Nat)
    (h0 : baseAddr + indices.mVec0 < mem.length) (h1 : baseAddr + indices.mVec1 < mem.length) :
    ∀ r ∈ [v.scatter_SCATTERS mem baseAddr (indices.mVec0 :: indices.mVec1 :: rest),
        v.scatter_MSCATTERS mask mem baseAddr (indices.mVec0 :: indices.mVec1 :: rest),
        v.scatter_SCATTERV mem baseAddr indices,
        v.scatter_MSCATTERV mask mem baseAddr indices],
      ∃ mem2, r = some (v, mem2, baseAddr) ∧ mem2.length = mem.length ∧
        ∀ a, a ≠ baseAddr + indices.mVec0 → a ≠ baseAddr + indices.mVec1 →
          mem2[a]? = mem[a]? := by
  intro r hr
  simp only [List.mem_cons, List.mem_singleton, List.not_mem_nil, or_false] at hr
  rcases mask with ⟨_ | _, _ | _⟩ <;> rcases hr with rfl | rfl | rfl | rfl <;>
    simp [SIMDVec_u_32_2.scatter_SCATTERS, SIMDVec_u_32_2.scatter_MSCATTERS,
      SIMDVec_u_32_2.scatter_SCATTERV, SIMDVec_u_32_2.scatter_MSCATTERV, SIMDVecMask2.get,
      Mem.write, h0, h1] <;>
    intro a ha0 ha1 <;>
    simp [List.getElem?_set, Ne.symm ha0, Ne.symm ha1]

/-- C6 at the spec's example with the mask `(true, false)`. -/
theorem C6_scatter_frame_witness :
    (0 + (SIMDVec_u_32_2.ofScalars 3 1).mVec0 < ([0, 0, 0, 0] : Mem).length ∧
      0 + (SIMDVec_u_32_2.ofScalars 3 1).mVec1 < ([0, 0, 0, 0] : Mem).length) ∧
    ∀ r ∈ [(SIMDVec_u_32_2.ofScalars 40 20).scatter_SCATTERS [0, 0, 0, 0] 0
          ((SIMDVec_u_32_2.ofScalars 3 1).mVec0 :: (SIMDVec_u_32_2.ofScalars 3 1).mVec1 :: []),
        (SIMDVec_u_32_2.ofScalars 40 20).scatter_MSCATTERS { m0 := true, m1 := false }
          [0, 0, 0, 0] 0
          ((SIMDVec_u_32_2.ofScalars 3 1).mVec0 :: (SIMDVec_u_32_2.ofScalars 3 1).mVec1 :: []),
        (SIMDVec_u_32_2.ofScalars 40 20).scatter_SCATTERV [0, 0, 0, 0] 0
          (SIMDVec_u_32_2.ofScalars 3 1),
        (SIMDVec_u_32_2.ofScalars 40 20).scatter_MSCATTERV { m0 := true, m1 := false }
          [0, 0, 0, 0] 0 (SIMDVec_u_32_2.ofScalars 3 1)],
      ∃ mem2, r = some (SIMDVec_u_32_2.ofScalars 40 20, mem2, 0) ∧
        mem2.length = ([0, 0, 0, 0] : Mem).length ∧
        ∀ a, a ≠ 0 + (SIMDVec_u_32_2.ofScalars 3 1).mVec0 →
          a ≠ 0 + (SIMDVec_u_32_2.ofScalars 3 1).mVec1 → mem2[a]? = ([0, 0, 0, 0] : Mem)[a]? :=
  ⟨⟨by decide, by decide⟩,
    C6_scatter_frame { m0 := true, m1 := false } (SIMDVec_u_32_2.ofScalars 40 20)
      (SIMDVec_u_32_2.ofScalars 3 1) [0, 0, 0, 0] 0 [] (by decide) (by decide)⟩

/-! ### Masked operations on `SIMDVec_u<uint32_t, 2>` -/

/-- C7 fails when a disabled lane shares its index with an enabled one: with the mask
`(false, true)` and indices `[1,1]`, lane 0 is skipped and yet its destination cell `base[1]`
changes from 0 to 20, the value lane 1 stores there. -/
theorem C7_masked_scatter_collision :
    (SIMDVec_u_32_2.ofScalars 40 20).scatter_MSCATTERS { m0 := false, m1 := true }
        [0, 0, 0, 0] 0 [1, 1] =
      some (SIMDVec_u_32_2.ofScalars 40 20, [0, 20, 0, 0], 0) ∧
    (SIMDVec_u_32_2.ofScalars 40 20).scatter_MSCATTERV { m0 := false, m1 := true }
        [0, 0, 0, 0] 0 (SIMDVec_u_32_2.ofScalars 1 1) =
      some (SIMDVec_u_32_2.ofScalars 40 20, [0, 20, 0, 0], 0) ∧
    ([0, 20, 0, 0] : Mem)[0 + 1]? ≠ ([0, 0, 0, 0] : Mem)[0 + 1]? := by
  decide

/-- C7 (amended): for every mask, vector, base memory and pair of in-range indices, MSCATTERS
and MSCATTERV succeed with the same memory and leave the source vector as it was; a lane whose
mask bit is false stores nothing, so its destination cell holds its previous value unless the
other lane is enabled and has the same index, in which case the cell holds that lane. -/
theorem C7_masked_scatter_amended (mask : SIMDVecMask2) (v : SIMDVec_u_32_2) (mem : Mem)
    (baseAddr i0 i1 : Nat) (rest : List Nat)
    (h0 : baseAddr + i0 < mem.length) (h1 : baseAddr + i1 < mem.length) :
    ∃ mem2, v.scatter_MSCATTERS mask mem baseAddr (i0 :: i1 :: rest) = some (v, mem2, baseAddr) ∧
      v.scatter_MSCATTERV mask mem baseAddr { mVec0 := i0, mVec1 := i1 } =
        some (v, mem2, baseAddr) ∧
      (mask.m0 = false → (mask.m1 = false ∨ i1 ≠ i0) →
        mem2[baseAddr + i0]? = mem[baseAddr + i0]?) ∧
      (mask.m1 = false → (mask.m0 = false ∨ i0 ≠ i1) →
        mem2[baseAddr + i1]? = mem[baseAddr + i1]?) ∧
      (mask.m0 = false → mask.m1 = true → i1 = i0 → mem2[baseAddr + i0]? = some v.mVec1) ∧
      (mask.m1 = false → mask.m0 = true → i0 = i1 → mem2[baseAddr + i1]? = some v.mVec0) := by
  rcases mask with ⟨_ | _, _ | _⟩
  · refine ⟨mem, ?_, ?_, ?_, ?_, ?_, ?_⟩ <;>
      simp [SIMDVec_u_32_2.scatter_MSCATTERS, SIMDVec_u_32_2.scatter_MSCATTERV,
        SIMDVecMask2.get]
  · refine ⟨mem.set (baseAddr + i1) v.mVec1, ?_, ?_, ?_, ?_, ?_, ?_⟩ <;>
      simp [SIMDVec_u_32_2.scatter_MSCATTERS, SIMDVec_u_32_2.scatter_MSCATTERV,
        SIMDVecMask2.get, Mem.write, h0, h1, List.getElem?_set]
    · intro h; simp [h]
    · intro h; simp [h, h0]
  · refine ⟨mem.set (baseAddr + i0) v.mVec0, ?_, ?_, ?_, ?_, ?_, ?_⟩ <;>
      simp [SIMDVec_u_32_2.scatter_MSCATTERS, SIMDVec_u_32_2.scatter_MSCATTERV,
        SIMDVecMask2.get, Mem.write, h0, h1, List.getElem?_set]
    · intro h; simp [h]
    · intro h; simp [h, h1]
  · refine ⟨(mem.set (baseAddr + i0) v.mVec0).set (baseAddr + i1) v.mVec1,
      ?_, ?_, ?_, ?_, ?_, ?_⟩ <;>
      simp [SIMDVec_u_32_2.scatter_MSCATTERS, SIMDVec_u_32_2.scatter_MSCATTERV,
        SIMDVecMask2.get, Mem.write, h0, h1]

/-- C7 (amended) with the mask `(false, true)` and the distinct indices `[3,1]`. -/
theorem C7_masked_scatter_amended_witness :
    (0 + 3 < ([7, 7, 7, 7] : Mem).length ∧ 0 + 1 < ([7, 7, 7, 7] : Mem).length) ∧
    ∃ mem2, (SIMDVec_u_32_2.ofScalars 40 20).scatter_MSCATTERS { m0 := false, m1 := true }
          [7, 7, 7, 7] 0 [3, 1] = some (SIMDVec_u_32_2.ofScalars 40 20, mem2, 0) ∧
      (SIMDVec_u_32_2.ofScalars 40 20).scatter_MSCATTERV { m0 := false, m1 := true }
          [7, 7, 7, 7] 0 { mVec0 := 3, mVec1 := 1 } =
        some (SIMDVec_u_32_2.ofScalars 40 20, mem2, 0) ∧
      (false = false → (true = false ∨ 1 ≠ 3) → mem2[0 + 3]? = ([7, 7, 7, 7] : Mem)[0 + 3]?) ∧
      (true = false → (false = false ∨ 3 ≠ 1) → mem2[0 + 1]? = ([7, 7, 7, 7] : Mem)[0 + 1]?) ∧
      (false = false → true = true → 1 = 3 →
        mem2[0 + 3]? = some (SIMDVec_u_32_2.ofScalars 40 20).mVec1) ∧
      (true = false → false = true → 3 = 1 →
        mem2[0 + 1]? = some (SIMDVec_u_32_2.ofScalars 40 20).mVec0) :=
  ⟨⟨by decide, by decide⟩,
    C7_masked_scatter_amended { m0 := false, m1 := true } (SIMDVec_u_32_2.ofScalars 40 20)
      [7, 7, 7, 7] 0 3 1 [] (by decide) (by decide)⟩

/-- C8: for every mask and each lane `i` of `SIMDVec_u<uint32_t,2>`, MPREFINC leaves lane `i`
equal to lane `i` of PREFINC when `m[i]` is true and to its previous value when `m[i]` is
false; with in-range indices MGATHERS and MGATHERV succeed and relate in the same way to
GATHERS and GATHERV. -/
theorem C8_masked_write (mask : SIMDVecMask2) (v : SIMDVec_u_32_2) (mem : Mem)
    (baseAddr i0 i1 : Nat) (rest : List Nat)
    (h0 : baseAddr + i0 < mem.length) (h1 : baseAddr + i1 < mem.length) :
    ((v.prefinc_MPREFINC mask).mVec0 = (if mask.m0 then v.prefinc.mVec0 else v.mVec0) ∧
      (v.prefinc_MPREFINC mask).mVec1 = (if mask.m1 then v.prefinc.mVec1 else v.mVec1)) ∧
    ∃ u, v.gather_GATHERS mem baseAddr (i0 :: i1 :: rest) = some (u, mem) ∧
      v.gather_GATHERV mem baseAddr { mVec0 := i0, mVec1 := i1 } = some (u, mem) ∧
      ∃ w, v.gather_MGATHERS mask mem baseAddr (i0 :: i1 :: rest) = some (w, mem) ∧
        v.gather_MGATHERV mask mem baseAddr { mVec0 := i0, mVec1 := i1 } = some (w, mem) ∧
        w.mVec0 = (if mask.m0 then u.mVec0 else v.mVec0) ∧
        w.mVec1 = (if mask.m1 then u.mVec1 else v.mVec1) := by
  have e0 := List.getElem?_eq_getElem h0
  have e1 := List.getElem?_eq_getElem h1
  rcases mask with ⟨_ | _, _ | _⟩ <;>
    simp [SIMDVec_u_32_2.prefinc_MPREFINC, SIMDVec_u_32_2.prefinc,
      SIMDVec_u_32_2.gather_GATHERS, SIMDVec_u_32_2.gather_GATHERV,
      SIMDVec_u_32_2.gather_MGATHERS, SIMDVec_u_32_2.gather_MGATHERV, SIMDVecMask2.get, e0, e1]

/-- C8 with the mask `(true, false)` on the vector `[5, 4294967295]`. -/
theorem C8_masked_write_witness :
    (0 + 3 < ([10, 20, 30, 40] : Mem).length ∧ 0 + 1 < ([10, 20, 30, 40] : Mem).length) ∧
    ((((SIMDVec_u_32_2.ofScalars 5 4294967295).prefinc_MPREFINC
          { m0 := true, m1 := false }).mVec0 =
        (if true then (SIMDVec_u_32_2.ofScalars 5 4294967295).prefinc.mVec0
          else (SIMDVec_u_32_2.ofScalars 5 4294967295).mVec0) ∧
      ((SIMDVec_u_32_2.ofScalars 5 4294967295).prefinc_MPREFINC
          { m0 := true, m1 := false }).mVec1 =
        (if false then (SIMDVec_u_32_2.ofScalars 5 4294967295).prefinc.mVec1
          else (SIMDVec_u_32_2.ofScalars 5 4294967295).mVec1)) ∧
    ∃ u, (SIMDVec_u_32_2.ofScalars 5 4294967295).gather_GATHERS [10, 20, 30, 40] 0 [3, 1] =
        some (u, [10, 20, 30, 40]) ∧
      (SIMDVec_u_32_2.ofScalars 5 4294967295).gather_GATHERV [10, 20, 30, 40] 0
          { mVec0 := 3, mVec1 := 1 } = some (u, [10, 20, 30, 40]) ∧
      ∃ w, (SIMDVec_u_32_2.ofScalars 5 4294967295).gather_MGATHERS { m0 := true, m1 := false }
            [10, 20, 30, 40] 0 [3, 1] = some (w, [10, 20, 30, 40]) ∧
        (SIMDVec_u_32_2.ofScalars 5 4294967295).gather_MGATHERV { m0 := true, m1 := false }
            [10, 20, 30, 40] 0 { mVec0 := 3, mVec1 := 1 } = some (w, [10, 20, 30, 40]) ∧
        w.mVec0 = (if true then u.mVec0 else (SIMDVec_u_32_2.ofScalars 5 4294967295).mVec0) ∧
        w.mVec1 = (if false then u.mVec1 else (SIMDVec_u_32_2.ofScalars 5 4294967295).mVec1)) :=
  ⟨⟨by decide, by decide⟩,
    C8_masked_write { m0 := true, m1 := false } (SIMDVec_u_32_2.ofScalars 5 4294967295)
      [10, 20, 30, 40] 0 3 1 [] (by decide) (by decide)⟩

/-- C9: on `SIMDVec_u<uint32_t,2>`, each of MPREFINC, MGATHERS, MGATHERV, MSCATTERS, MSCATTERV
called with the all-false mask succeeds and leaves the receiver and the whole memory as they
were, and called with the all-true mask gives exactly the result of PREFINC, GATHERS, GATHERV,
SCATTERS, SCATTERV on the same inputs. -/
theorem C9_mask_all_false_all_true (v indices : SIMDVec_u_32_2) (mem : Mem) (baseAddr : Nat)
    (idx : List Nat) :
    (v.prefinc_MPREFINC { m0 := false, m1 := false } = v ∧
      v.gather_MGATHERS { m0 := false, m1 := false } mem baseAddr idx = some (v, mem) ∧
      v.gather_MGATHERV { m0 := false, m1 := false } mem baseAddr indices = some (v, mem) ∧
      v.scatter_MSCATTERS { m0 := false, m1 := false } mem baseAddr idx =
        some (v, mem, baseAddr) ∧
      v.scatter_MSCATTERV { m0 := false, m1 := false } mem baseAddr indices =
        some (v, mem, baseAddr)) ∧
    (v.prefinc_MPREFINC { m0 := true, m1 := true } = v.prefinc ∧
      v.gather_MGATHERS { m0 := true, m1 := true } mem baseAddr idx =
        v.gather_GATHERS mem baseAddr idx ∧
      v.gather_MGATHERV { m0 := true, m1 := true } mem baseAddr indices =
        v.gather_GATHERV mem baseAddr indices ∧
      v.scatter_MSCATTERS { m0 := true, m1 := true } mem baseAddr idx =
        v.scatter_SCATTERS mem baseAddr idx ∧
      v.scatter_MSCATTERV { m0 := true, m1 := true } mem baseAddr indices =
        v.scatter_SCATTERV mem baseAddr indices) := by
  refine ⟨⟨?_, ?_, ?_, ?_, ?_⟩, ⟨?_, ?_, ?_, ?_, ?_⟩⟩ <;>
    simp [SIMDVec_u_32_2.prefinc_MPREFINC, SIMDVec_u_32_2.prefinc,
      SIMDVec_u_32_2.gather_GATHERS, SIMDVec_u_32_2.gather_GATHERV,
      SIMDVec_u_32_2.gather_MGATHERS, SIMDVec_u_32_2.gather_MGATHERV,
      SIMDVec_u_32_2.scatter_SCATTERS, SIMDVec_u_32_2.scatter_SCATTERV,
      SIMDVec_u_32_2.scatter_MSCATTERS, SIMDVec_u_32_2.scatter_MSCATTERV, SIMDVecMask2.get]

/-! ### Masked aligned load on `SIMDVec_f<double, 8>` -/

/-- The double made from a mask lane has its sign bit set exactly when the lane is true:
all ones is the integer -1, converted to -1.0, and zero is converted to +0.0. -/
theorem signBit64_cvt_maskLane32 (b : Bool) : signBit64 (cvt_i32_f64 (maskLane32 b)) = b := by
  cases b <;> decide

/-- Blending through a converted mask half selects by the four booleans of that half. -/
theorem blendv_cvt_mask (a t : M256d) (c0 c1 c2 c3 : Bool) :
    _mm256_blendv_pd a t (_mm256_cvtepi32_pd
        { e0 := maskLane32 c0, e1 := maskLane32 c1, e2 := maskLane32 c2, e3 := maskLane32 c3 }) =
      { d0 := if c0 then t.d0 else a.d0, d1 := if c1 then t.d1 else a.d1,
        d2 := if c2 then t.d2 else a.d2, d3 := if c3 then t.d3 else a.d3 } := by
  unfold _mm256_blendv_pd _mm256_cvtepi32_pd
  simp only [signBit64_cvt_maskLane32]

/-- A conditional read of an allocated cell. -/
theorem condRead_eq_some (b : Bool) (mem : Mem) (k x d : Nat) (e : mem[k]? = some x) :
    SIMDVec_f_64_8.condRead b mem k d = some (if b then x else d) := by
  cases b <;> simp [SIMDVec_f_64_8.condRead, e]

/-- MLOADA on eight allocated cells at an aligned address, lane by lane. -/
theorem mloada_eq_some (b0 b1 b2 b3 b4 b5 b6 b7 : Bool) (v : SIMDVec_f_64_8) (mem : Mem)
    (p x0 x1 x2 x3 x4 x5 x6 x7 : Nat) (ha : p % 4 = 0)
    (e0 : mem[p]? = some x0) (e1 : mem[p + 1]? = some x1) (e2 : mem[p + 2]? = some x2)
    (e3 : mem[p + 3]? = some x3) (e4 : mem[p + 4]? = some x4) (e5 : mem[p + 5]? = some x5)
    (e6 : mem[p + 6]? = some x6) (e7 : mem[p + 7]? = some x7) :
    v.loada_MLOADA (SIMDVecMask8.ofBools b0 b1 b2 b3 b4 b5 b6 b7) mem p =
      some { mVecLo := { d0 := if b0 then x0 else v.mVecLo.d0,
                         d1 := if b1 then x1 else v.mVecLo.d1,
                         d2 := if b2 then x2 else v.mVecLo.d2,
                         d3 := if b3 then x3 else v.mVecLo.d3 },
             mVecHi := { d0 := if b4 then x4 else v.mVecHi.d0,
                         d1 := if b5 then x5 else v.mVecHi.d1,
                         d2 := if b6 then x6 else v.mVecHi.d2,
                         d3 := if b7 then x7 else v.mVecHi.d3 } } := by
  have ha4 : (p + 4) % 4 = 0 := by omega
  have hlo : _mm256_load_pd mem p = some { d0 := x0, d1 := x1, d2 := x2, d3 := x3 } := by
    simp [_mm256_load_pd, ha, _mm256_loadu_pd, e0, e1, e2, e3]
  have hhi : _mm256_load_pd mem (p + 4) = some { d0 := x4, d1 := x5, d2 := x6, d3 := x7 } := by
    simp [_mm256_load_pd, ha4, _mm256_loadu_pd, e4, e5, e6, e7]
  have hx0 : _mm256_extractf128_si256 (SIMDVecMask8.ofBools b0 b1 b2 b3 b4 b5 b6 b7).mMask 0 =
      { e0 := maskLane32 b0, e1 := maskLane32 b1, e2 := maskLane32 b2, e3 := maskLane32 b3 } :=
    rfl
  have hx1 : _mm256_extractf128_si256 (SIMDVecMask8.ofBools b0 b1 b2 b3 b4 b5 b6 b7).mMask 1 =
      { e0 := maskLane32 b4, e1 := maskLane32 b5, e2 := maskLane32 b6, e3 := maskLane32 b7 } :=
    rfl
  simp only [SIMDVec_f_64_8.loada_MLOADA, hlo, hhi, hx0, hx1, blendv_cvt_mask,
    Option.bind_eq_bind, Option.some_bind, Option.pure_def]

/-- The lane-by-lane conditional on eight allocated cells. -/
theorem laneByLane_eq_some (b0 b1 b2 b3 b4 b5 b6 b7 : Bool) (v : SIMDVec_f_64_8) (mem : Mem)
    (p x0 x1 x2 x3 x4 x5 x6 x7 : Nat)
    (e0 : mem[p]? = some x0) (e1 : mem[p + 1]? = some x1) (e2 : mem[p + 2]? = some x2)
    (e3 : mem[p + 3]? = some x3) (e4 : mem[p + 4]? = some x4) (e5 : mem[p + 5]? = some x5)
    (e6 : mem[p + 6]? = some x6) (e7 : mem[p + 7]? = some x7) :
    v.loadaLaneByLane b0 b1 b2 b3 b4 b5 b6 b7 mem p =
      some { mVecLo := { d0 := if b0 then x0 else v.mVecLo.d0,
                         d1 := if b1 then x1 else v.mVecLo.d1,
                         d2 := if b2 then x2 else v.mVecLo.d2,
                         d3 := if b3 then x3 else v.mVecLo.d3 },
             mVecHi := { d0 := if b4 then x4 else v.mVecHi.d0,
                         d1 := if b5 then x5 else v.mVecHi.d1,
                         d2 := if b6 then x6 else v.mVecHi.d2,
                         d3 := if b7 then x7 else v.mVecHi.d3 } } := by
  simp only [SIMDVec_f_64_8.loadaLaneByLane, condRead_eq_some _ _ _ _ _ e0,
    condRead_eq_some _ _ _ _ _ e1, condRead_eq_some _ _ _ _ _ e2, condRead_eq_some _ _ _ _ _ e3,
    condRead_eq_some _ _ _ _ _ e4, condRead_eq_some _ _ _ _ _ e5, condRead_eq_some _ _ _ _ _ e6,
    condRead_eq_some _ _ _ _ _ e7, Option.bind_eq_bind, Option.some_bind, Option.pure_def]

/-- C10: for every mask of `SIMDVec_f<double,8>` whose 32-bit lanes are all ones for true and
zero for false, every vector and every aligned buffer of eight doubles at `p`, MLOADA (blend
through `_mm256_cvtepi32_pd` and `_mm256_blendv_pd`) succeeds and yields the vector of the
lane-by-lane conditional: lane `i` is `p[i]` when `mask[i]` is true and its previous value when
`mask[i]` is false, mask lanes 0..3 governing `mVecLo` and 4..7 `mVecHi`. -/
theorem C10_mloada_lane_by_lane (b0 b1 b2 b3 b4 b5 b6 b7 : Bool) (v : SIMDVec_f_64_8)
    (mem : Mem) (p : Nat) (hp : p + 8 ≤ mem.length) (ha : p % 4 = 0) :
    v.loada_MLOADA (SIMDVecMask8.ofBools b0 b1 b2 b3 b4 b5 b6 b7) mem p =
      v.loadaLaneByLane b0 b1 b2 b3 b4 b5 b6 b7 mem p ∧
    ∃ w, v.loada_MLOADA (SIMDVecMask8.ofBools b0 b1 b2 b3 b4 b5 b6 b7) mem p = some w ∧
      ∀ i, i < 8 → w.extract i =
        if [b0, b1, b2, b3, b4, b5, b6, b7][i]? = some true then mem[p + i]? else v.extract i := by
  have e0 : mem[p]? = some mem[p] := List.getElem?_eq_getElem (by omega)
  have e1 : mem[p + 1]? = some mem[p + 1] := List.getElem?_eq_getElem (by omega)
  have e2 : mem[p + 2]? = some mem[p + 2] := List.getElem?_eq_getElem (by omega)
  have e3 : mem[p + 3]? = some mem[p + 3] := List.getElem?_eq_getElem (by omega)
  have e4 : mem[p + 4]? = some mem[p + 4] := List.getElem?_eq_getElem (by omega)
  have e5 : mem[p + 5]? = some mem[p + 5] := List.getElem?_eq_getElem (by omega)
  have e6 : mem[p + 6]? = some mem[p + 6] := List.getElem?_eq_getElem (by omega)
  have e7 : mem[p + 7]? = some mem[p + 7] := List.getElem?_eq_getElem (by omega)
  have hm := mloada_eq_some b0 b1 b2 b3 b4 b5 b6 b7 v mem p _ _ _ _ _ _ _ _ ha
    e0 e1 e2 e3 e4 e5 e6 e7
  have hs := laneByLane_eq_some b0 b1 b2 b3 b4 b5 b6 b7 v mem p _ _ _ _ _ _ _ _
    e0 e1 e2 e3 e4 e5 e6 e7
  refine ⟨hm.trans hs.symm, _, hm, ?_⟩
  intro i hi
  rw [extract_eq_lanes _ i hi, extract_eq_lanes v i hi]
  interval_cases i
  · cases b0 <;> simp [SIMDVec_f_64_8.lanes, e0]
  · cases b1 <;> simp [SIMDVec_f_64_8.lanes, e1]
  · cases b2 <;> simp [SIMDVec_f_64_8.lanes, e2]
  · cases b3 <;> simp [SIMDVec_f_64_8.lanes, e3]
  · cases b4 <;> simp [SIMDVec_f_64_8.lanes, e4]
  · cases b5 <;> simp [SIMDVec_f_64_8.lanes, e5]
  · cases b6 <;> simp [SIMDVec_f_64_8.lanes, e6]
  · cases b7 <;> simp [SIMDVec_f_64_8.lanes, e7]

/-- C10 with the mask `(T,F,T,F,F,T,F,T)`, the vector (1, ..., 8) and the cells 11..18. -/
theorem C10_mloada_lane_by_lane_witness :
    (0 + 8 ≤ ([11, 12, 13, 14, 15, 16, 17, 18] : Mem).length ∧ 0 % 4 = 0) ∧
    ((SIMDVec_f_64_8.ofScalars 1 2 3 4 5 6 7 8).loada_MLOADA
        (SIMDVecMask8.ofBools true false true false false true false true)
        [11, 12, 13, 14, 15, 16, 17, 18] 0 =
      (SIMDVec_f_64_8.ofScalars 1 2 3 4 5 6 7 8).loadaLaneByLane
        true false true false false true false true [11, 12, 13, 14, 15, 16, 17, 18] 0 ∧
    ∃ w, (SIMDVec_f_64_8.ofScalars 1 2 3 4 5 6 7 8).loada_MLOADA
        (SIMDVecMask8.ofBools true false true false false true false true)
        [11, 12, 13, 14, 15, 16, 17, 18] 0 = some w ∧
      ∀ i, i < 8 → w.extract i =
        if [true, false, true, false, false, true, false, true][i]? = some true
        then ([11, 12, 13, 14, 15, 16, 17, 18] : Mem)[0 + i]?
        else (SIMDVec_f_64_8.ofScalars 1 2 3 4 5 6 7 8).extract i) :=
  ⟨⟨by decide, by decide⟩,
    C10_mloada_lane_by_lane true false true false false true false true
      (SIMDVec_f_64_8.ofScalars 1 2 3 4 5 6 7 8) [11, 12, 13, 14, 15, 16, 17, 18] 0
      (by decide) (by decide)⟩

/-- The example of C10 evaluated: lanes 0, 2, 5 and 7 are loaded, the others kept. -/
theorem mloada_example :
    (SIMDVec_f_64_8.ofScalars 1 2 3 4 5 6 7 8).loada_MLOADA
        (SIMDVecMask8.ofBools true false true false false true false true)
        [11, 12, 13, 14, 15, 16, 17, 18] 0 =
      some (SIMDVec_f_64_8.ofScalars 11 2 13 4 5 16 7 18) := by
  decide

/-! ### Masked aligned store on `SIMDVec_f<double, 8>` -/

/-- A conditional update keeps the size of the memory. -/
theorem Mem.length_condSet (b : Bool) (mem : Mem) (k x : Nat) :
    (Mem.condSet b mem k x).length = mem.length := by
  cases b <;> simp [Mem.condSet]

/-- A conditional store to an allocated cell succeeds. -/
theorem Mem.condWrite_eq_some (b : Bool) {mem : Mem} {k : Nat} (x : Nat) (h : k < mem.length) :
    mem.condWrite b k x = some (Mem.condSet b mem k x) := by
  cases b <;> simp [Mem.condWrite, Mem.condSet, Mem.write, h]

/-- Reading a cell after a conditional update. -/
theorem Mem.getElem?_condSet (b : Bool) (mem : Mem) (k x a : Nat) (h : k < mem.length) :
    (Mem.condSet b mem k x)[a]? = if b = true ∧ a = k then some x else mem[a]? := by
  cases b
  · simp [Mem.condSet]
  · by_cases hak : a = k
    · subst hak; simp [Mem.condSet, h]
    · simp [Mem.condSet, hak, List.getElem?_set_ne (Ne.symm hak)]

/-- Four conditional updates keep the size of the memory. -/
theorem Mem.length_condSet4 (c0 c1 c2 c3 : Bool) (mem : Mem) (p : Nat) (a : M256d) :
    (Mem.condSet4 c0 c1 c2 c3 mem p a).length = mem.length := by
  simp only [Mem.condSet4, Mem.length_condSet]

/-- Reading a cell after four conditional updates of consecutive cells. -/
theorem Mem.getElem?_condSet4 (c0 c1 c2 c3 : Bool) (mem : Mem) (p : Nat) (a : M256d) (k : Nat)
    (h : p + 4 ≤ mem.length) :
    (Mem.condSet4 c0 c1 c2 c3 mem p a)[k]? =
      if c0 = true ∧ k = p then some a.d0
      else if c1 = true ∧ k = p + 1 then some a.d1
      else if c2 = true ∧ k = p + 2 then some a.d2
      else if c3 = true ∧ k = p + 3 then some a.d3 else mem[k]? := by
  unfold Mem.condSet4
  rw [Mem.getElem?_condSet _ _ _ _ _ (by simp only [Mem.length_condSet]; omega),
    Mem.getElem?_condSet _ _ _ _ _ (by simp only [Mem.length_condSet]; omega),
    Mem.getElem?_condSet _ _ _ _ _ (by simp only [Mem.length_condSet]; omega),
    Mem.getElem?_condSet _ _ _ _ _ (by omega)]
  split_ifs <;> first | rfl | omega

/-- Four conditional stores to allocated cells succeed. -/
theorem Mem.condWrite4_eq_some (c0 c1 c2 c3 : Bool) (mem : Mem) (p : Nat) (a : M256d)
    (h : p + 4 ≤ mem.length) :
    mem.condWrite4 c0 c1 c2 c3 p a = some (Mem.condSet4 c0 c1 c2 c3 mem p a) := by
  have h0 : p < mem.length := by omega
  have h1 : p + 1 < (Mem.condSet c0 mem p a.d0).length := by
    rw [Mem.length_condSet]; omega
  have h2 : p + 2 < (Mem.condSet c1 (Mem.condSet c0 mem p a.d0) (p + 1) a.d1).length := by
    simp only [Mem.length_condSet]; omega
  have h3 : p + 3 < (Mem.condSet c2 (Mem.condSet c1 (Mem.condSet c0 mem p a.d0) (p + 1) a.d1)
      (p + 2) a.d2).length := by
    simp only [Mem.length_condSet]; omega
  simp only [Mem.condWrite4, Mem.condWrite_eq_some _ _ h0, Mem.condWrite_eq_some _ _ h1,
    Mem.condWrite_eq_some _ _ h2, Mem.condWrite_eq_some _ _ h3, Option.bind_eq_bind,
    Option.some_bind, Option.pure_def, Mem.condSet4]

/-- Read back as an integer, the double made from a mask lane has its highest bit set exactly
when the lane is true. -/
theorem maskBit_cvt_maskLane32 (b : Bool) :
    (cvt_i32_f64 (maskLane32 b) / 2 ^ 32 % 2 ^ 32).testBit 31 = b := by
  cases b <;> decide

/-- A masked store through a converted mask half stores by the four booleans of that half. -/
theorem maskstore_cvt_mask (mem : Mem) (p : Nat) (a : M256d) (c0 c1 c2 c3 : Bool) :
    _mm256_maskstore_pd mem p (unionPdAsEpi64 (_mm256_cvtepi32_pd
        { e0 := maskLane32 c0, e1 := maskLane32 c1, e2 := maskLane32 c2, e3 := maskLane32 c3 }))
        a = mem.condWrite4 c0 c1 c2 c3 p a := by
  unfold _mm256_maskstore_pd unionPdAsEpi64 _mm256_cvtepi32_pd
  simp only [maskBit_cvt_maskLane32]

/-- MSTOREA on eight allocated cells. -/
theorem mstorea_eq_some (b0 b1 b2 b3 b4 b5 b6 b7 : Bool) (v : SIMDVec_f_64_8) (mem : Mem)
    (p : Nat) (hp : p + 8 ≤ mem.length) :
    v.storea_MSTOREA (SIMDVecMask8.ofBools b0 b1 b2 b3 b4 b5 b6 b7) mem p =
      some (v, Mem.condSet4 b4 b5 b6 b7 (Mem.condSet4 b0 b1 b2 b3 mem p v.mVecLo) (p + 4)
        v.mVecHi, p) := by
  have hx0 : _mm256_extractf128_si256 (SIMDVecMask8.ofBools b0 b1 b2 b3 b4 b5 b6 b7).mMask 0 =
      { e0 := maskLane32 b0, e1 := maskLane32 b1, e2 := maskLane32 b2, e3 := maskLane32 b3 } :=
    rfl
  have hx1 : _mm256_extractf128_si256 (SIMDVecMask8.ofBools b0 b1 b2 b3 b4 b5 b6 b7).mMask 1 =
      { e0 := maskLane32 b4, e1 := maskLane32 b5, e2 := maskLane32 b6, e3 := maskLane32 b7 } :=
    rfl
  have h1 : p + 4 ≤ mem.length := by omega
  have h2 : p + 4 + 4 ≤ (Mem.condSet4 b0 b1 b2 b3 mem p v.mVecLo).length := by
    rw [Mem.length_condSet4]; omega
  simp only [SIMDVec_f_64_8.storea_MSTOREA, hx0, hx1, maskstore_cvt_mask,
    Mem.condWrite4_eq_some _ _ _ _ _ _ _ h1, Mem.condWrite4_eq_some _ _ _ _ _ _ _ h2,
    Option.bind_eq_bind, Option.some_bind, Option.pure_def]

/-- The lane-by-lane conditional store on eight allocated cells. -/
theorem storeaLaneByLane_eq_some (b0 b1 b2 b3 b4 b5 b6 b7 : Bool) (v : SIMDVec_f_64_8)
    (mem : Mem) (p : Nat) (hp : p + 8 ≤ mem.length) :
    v.storeaLaneByLane b0 b1 b2 b3 b4 b5 b6 b7 mem p =
      some (v, Mem.condSet4 b4 b5 b6 b7 (Mem.condSet4 b0 b1 b2 b3 mem p v.mVecLo) (p + 4)
        v.mVecHi, p) := by
  have h1 : p + 4 ≤ mem.length := by omega
  have h2 : p + 4 + 4 ≤ (Mem.condSet4 b0 b1 b2 b3 mem p v.mVecLo).length := by
    rw [Mem.length_condSet4]; omega
  have e1 := Mem.condWrite4_eq_some b0 b1 b2 b3 mem p v.mVecLo h1
  have e2 := Mem.condWrite4_eq_some b4 b5 b6 b7 _ (p + 4) v.mVecHi h2
  have key : v.storeaLaneByLane b0 b1 b2 b3 b4 b5 b6 b7 mem p =
      (mem.condWrite4 b0 b1 b2 b3 p v.mVecLo).bind fun m =>
        (m.condWrite4 b4 b5 b6 b7 (p + 4) v.mVecHi).bind fun m2 => some (v, m2, p) := by
    simp only [SIMDVec_f_64_8.storeaLaneByLane, Mem.condWrite4, Option.bind_eq_bind,
      Option.pure_def, Option.bind_assoc, Option.bind_some, Option.some_bind, Nat.add_assoc,
      Nat.reduceAdd]
  rw [key, e1, Option.some_bind, e2, Option.some_bind]

/-- C11: for every mask of `SIMDVec_f<double,8>` whose 32-bit lanes are all ones for true and
zero for false, every vector `v` and every buffer of eight doubles at `p`, MSTOREA succeeds,
returns `p`, leaves `v` as it was and does what the lane-by-lane conditional store does:
`p[i]` is lane `i` of `v` when `mask[i]` is true and its previous value when `mask[i]` is
false; no cell outside `p[0..7]` changes and the memory keeps its size. -/
theorem C11_mstorea_lane_by_lane (b0 b1 b2 b3 b4 b5 b6 b7 : Bool) (v : SIMDVec_f_64_8)
    (mem : Mem) (p : Nat) (hp : p + 8 ≤ mem.length) :
    v.storea_MSTOREA (SIMDVecMask8.ofBools b0 b1 b2 b3 b4 b5 b6 b7) mem p =
      v.storeaLaneByLane b0 b1 b2 b3 b4 b5 b6 b7 mem p ∧
    ∃ mem2, v.storea_MSTOREA (SIMDVecMask8.ofBools b0 b1 b2 b3 b4 b5 b6 b7) mem p =
        some (v, mem2, p) ∧
      mem2.length = mem.length ∧
      (∀ i, i < 8 → mem2[p + i]? =
        if [b0, b1, b2, b3, b4, b5, b6, b7][i]? = some true then v.extract i else mem[p + i]?) ∧
      (∀ k, k < p ∨ p + 8 ≤ k → mem2[k]? = mem[k]?) := by
  have hm := mstorea_eq_some b0 b1 b2 b3 b4 b5 b6 b7 v mem p hp
  have hs := storeaLaneByLane_eq_some b0 b1 b2 b3 b4 b5 b6 b7 v mem p hp
  have h1 : p + 4 ≤ mem.length := by omega
  have h2 : p + 4 + 4 ≤ (Mem.condSet4 b0 b1 b2 b3 mem p v.mVecLo).length := by
    rw [Mem.length_condSet4]; omega
  refine ⟨hm.trans hs.symm, _, hm, ?_, ?_, ?_⟩
  · simp only [Mem.length_condSet4]
  · intro i hi
    rw [extract_eq_lanes v i hi, Mem.getElem?_condSet4 _ _ _ _ _ _ _ _ h2,
      Mem.getElem?_condSet4 _ _ _ _ _ _ _ _ h1]
    have q1 : p ≠ p + 4 + 1 := by omega
    have q2 : p ≠ p + 4 + 2 := by omega
    have q3 : p ≠ p + 4 + 3 := by omega
    interval_cases i
    · cases b0 <;> simp [SIMDVec_f_64_8.lanes, q1, q2, q3]
    · cases b1 <;> simp [SIMDVec_f_64_8.lanes]
    · cases b2 <;> simp [SIMDVec_f_64_8.lanes]
    · cases b3 <;> simp [SIMDVec_f_64_8.lanes]
    · cases b4 <;> simp [SIMDVec_f_64_8.lanes]
    · cases b5 <;> simp [SIMDVec_f_64_8.lanes]
    · cases b6 <;> simp [SIMDVec_f_64_8.lanes]
    · cases b7 <;> simp [SIMDVec_f_64_8.lanes]
  · intro k hk
    rw [Mem.getElem?_condSet4 _ _ _ _ _ _ _ _ h2, Mem.getElem?_condSet4 _ _ _ _ _ _ _ _ h1]
    have n0 : k ≠ p := by omega
    have n1 : k ≠ p + 1 := by omega
    have n2 : k ≠ p + 2 := by omega
    have n3 : k ≠ p + 3 := by omega
    have n4 : k ≠ p + 4 := by omega
    have n5 : k ≠ p + 4 + 1 := by omega
    have n6 : k ≠ p + 4 + 2 := by omega
    have n7 : k ≠ p + 4 + 3 := by omega
    simp only [n0, n1, n2, n3, n4, n5, n6, n7, and_false, if_false]

/-- C11 with the mask `(T,F,T,F,F,T,F,T)` and the vector (1, ..., 8), stored at cell 1 of a
memory of ten cells. -/
theorem C11_mstorea_lane_by_lane_witness :
    (1 + 8 ≤ ([10, 11, 12, 13, 14, 15, 16, 17, 18, 19] : Mem).length) ∧
    ((SIMDVec_f_64_8.ofScalars 1 2 3 4 5 6 7 8).storea_MSTOREA
        (SIMDVecMask8.ofBools true false true false false true false true)
        [10, 11, 12, 13, 14, 15, 16, 17, 18, 19] 1 =
      (SIMDVec_f_64_8.ofScalars 1 2 3 4 5 6 7 8).storeaLaneByLane
        true false true false false true false true [10, 11, 12, 13, 14, 15, 16, 17, 18, 19] 1 ∧
    ∃ mem2, (SIMDVec_f_64_8.ofScalars 1 2 3 4 5 6 7 8).storea_MSTOREA
        (SIMDVecMask8.ofBools true false true false false true false true)
        [10, 11, 12, 13, 14, 15, 16, 17, 18, 19] 1 =
        some (SIMDVec_f_64_8.ofScalars 1 2 3 4 5 6 7 8, mem2, 1) ∧
      mem2.length = ([10, 11, 12, 13, 14, 15, 16, 17, 18, 19] : Mem).length ∧
      (∀ i, i < 8 → mem2[1 + i]? =
        if [true, false, true, false, false, true, false, true][i]? = some true
        then (SIMDVec_f_64_8.ofScalars 1 2 3 4 5 6 7 8).extract i
        else ([10, 11, 12, 13, 14, 15, 16, 17, 18, 19] : Mem)[1 + i]?) ∧
      (∀ k, k < 1 ∨ 1 + 8 ≤ k →
        mem2[k]? = ([10, 11, 12, 13, 14, 15, 16, 17, 18, 19] : Mem)[k]?)) :=
  ⟨by decide,
    C11_mstorea_lane_by_lane true false true false false true false true
      (SIMDVec_f_64_8.ofScalars 1 2 3 4 5 6 7 8) [10, 11, 12, 13, 14, 15, 16, 17, 18, 19] 1
      (by decide)⟩

/-- The example of C11 evaluated: cells 1, 3, 6 and 8 receive lanes 0, 2, 5 and 7. -/
theorem mstorea_example :
    (SIMDVec_f_64_8.ofScalars 1 2 3 4 5 6 7 8).storea_MSTOREA
        (SIMDVecMask8.ofBools true false true false false true false true)
        [10, 11, 12, 13, 14, 15, 16, 17, 18, 19] 1 =
      some (SIMDVec_f_64_8.ofScalars 1 2 3 4 5 6 7 8,
        [10, 1, 12, 3, 14, 15, 6, 17, 8, 19], 1) := by
  decide

/-! ### Index wrap-around -/

/-- C12: on `SIMDVec_u<uint32_t,2>`, for every index `i` (also `i >= 2`), `extract(i)` and
`operator[](i)` read lane `i mod 2`, and `insert(i, x)` writes lane `i mod 2` and leaves the
other lane; every access falls inside the two cells of `mVec` (none of them fails). -/
theorem C12_index_wraps (v : SIMDVec_u_32_2) (i x : Nat) :
    v.extract i = [v.mVec0, v.mVec1][i % 2]? ∧
    v.subscript i = [v.mVec0, v.mVec1][i % 2]? ∧
    (v.extract i).isSome ∧ (v.subscript i).isSome ∧
    v.insert i x =
      some (if i % 2 = 0 then { v with mVec0 := x } else { v with mVec1 := x }) := by
  rcases Nat.mod_two_eq_zero_or_one i with h | h <;>
    simp [SIMDVec_u_32_2.extract, SIMDVec_u_32_2.subscript, SIMDVec_u_32_2.insert,
      SIMDVec_u_32_2.mVecRead, SIMDVec_u_32_2.mVecWrite, Nat.and_one_is_mod, h]

/-- For an index of 8 or more the AVX `extract`, `operator[]` and `insert` subscript the
four-cell scratch array `raw` at `index - 4 >= 4`, outside the array. -/
theorem extract_out_of_range (v : SIMDVec_f_64_8) (i x : Nat) (h : 8 ≤ i) :
    v.extract i = none ∧ v.subscript i = none ∧ v.insert i x = none := by
  have h4 : ¬ i < 4 := by omega
  have h5 : 4 ≤ i - 4 := by omega
  have h6 : ¬ i - 4 < 4 := by omega
  simp [SIMDVec_f_64_8.extract, SIMDVec_f_64_8.subscript, SIMDVec_f_64_8.insert,
    SIMDVec_f_64_8.rawScratch, _mm256_store_pd, _mm256_storeu_pd, Mem.write, h4, h5, h6]

/-- C13 (code defect): on the AVX `SIMDVec_f<double,8>` the index 8 does not wrap to lane 0:
`extract(8)`, `operator[](8)` and `insert(8, 99)` access `raw[4]`, outside the four-cell scratch
array, whereas lane `8 mod 8` of the vector (1, ..., 8) holds 1. -/
theorem C13_index_out_of_range :
    (SIMDVec_f_64_8.ofScalars 1 2 3 4 5 6 7 8).extract 8 = none ∧
    (SIMDVec_f_64_8.ofScalars 1 2 3 4 5 6 7 8).subscript 8 = none ∧
    (SIMDVec_f_64_8.ofScalars 1 2 3 4 5 6 7 8).insert 8 99 = none ∧
    (SIMDVec_f_64_8.ofScalars 1 2 3 4 5 6 7 8).extract (8 % 8) = some 1 := by
  decide

/-! ### Pack, unpack, increment and constructors -/

/-- C14: for every `SIMDVec_u<uint32_t,2>` vector `v`, after `v.unpack(a, b)` the width-1
vector `a` holds lane 0 of `v`, the width-1 vector `b` holds lane 1 of `v`, and `v` is as
before. -/
theorem C14_unpack (v : SIMDVec_u_32_2) (a b : SIMDVec_u_32_1) :
    (v.unpack a b).1 = v ∧
    (v.unpack a b).2.1.extract 0 = v.extract 0 ∧
    (v.unpack a b).2.2.extract 0 = v.extract 1 ∧
    (v.unpack a b).2.1 = { mVec0 := v.mVec0 } ∧
    (v.unpack a b).2.2 = { mVec0 := v.mVec1 } ∧
    v.extract 0 = some v.mVec0 ∧ v.extract 1 = some v.mVec1 := by
  refine ⟨rfl, ?_, ?_, ?_, ?_, rfl, rfl⟩ <;>
    simp [SIMDVec_u_32_2.unpack, SIMDVec_u_32_1.insert, SIMDVec_u_32_1.extract,
      SIMDVec_u_32_2.extract, SIMDVec_u_32_2.mVecRead]

/-- C15: for `SIMDVec_u<uint32_t,2>`, packing the two halves obtained by unpacking `v` gives
`v` again, and unpacking the vector packed from `(va, vb)` gives back exactly `(va, vb)`. -/
theorem C15_pack_unpack_inverse (v w : SIMDVec_u_32_2) (a b va vb : SIMDVec_u_32_1) :
    w.pack (v.unpack a b).2.1 (v.unpack a b).2.2 = v ∧
    (w.pack va vb).unpack a b = (w.pack va vb, va, vb) := by
  refine ⟨?_, ?_⟩ <;>
    simp [SIMDVec_u_32_2.unpack, SIMDVec_u_32_2.pack, SIMDVec_u_32_1.insert]

/-- C16: `SIMDVec_u<uint32_t,2>::prefinc()` leaves each lane equal to (old lane + 1) mod 2^32
and returns the receiver after the increment; on `[0xFFFFFFFF, 5]` the receiver and the
returned value are both `[0, 6]`. -/
theorem C16_prefinc_wraps (v : SIMDVec_u_32_2) :
    v.prefinc_call.1.mVec0 = (v.mVec0 + 1) % 2 ^ 32 ∧
    v.prefinc_call.1.mVec1 = (v.mVec1 + 1) % 2 ^ 32 ∧
    v.prefinc_call.2 = v.prefinc_call.1 ∧
    (SIMDVec_u_32_2.ofScalars 0xFFFFFFFF 5).prefinc_call =
      (SIMDVec_u_32_2.ofScalars 0 6, SIMDVec_u_32_2.ofScalars 0 6) := by
  refine ⟨rfl, rfl, rfl, by decide⟩

/-- C17: the full-length constructors fill the lanes in argument order: `SIMDVec_u(i0, i1)`
has `extract(0) = i0` and `extract(1) = i1`; `SIMDVec_f(d0, ..., d7)` has `extract(k) = dk` for
each `k < 8`, with `d0..d3` in `mVecLo` and `d4..d7` in `mVecHi`. -/
theorem C17_full_constructors (i0 i1 d0 d1 d2 d3 d4 d5 d6 d7 : Nat) :
    ((SIMDVec_u_32_2.ofScalars i0 i1).extract 0 = some i0 ∧
      (SIMDVec_u_32_2.ofScalars i0 i1).extract 1 = some i1) ∧
    ((SIMDVec_f_64_8.ofScalars d0 d1 d2 d3 d4 d5 d6 d7).extract 0 = some d0 ∧
      (SIMDVec_f_64_8.ofScalars d0 d1 d2 d3 d4 d5 d6 d7).extract 1 = some d1 ∧
      (SIMDVec_f_64_8.ofScalars d0 d1 d2 d3 d4 d5 d6 d7).extract 2 = some d2 ∧
      (SIMDVec_f_64_8.ofScalars d0 d1 d2 d3 d4 d5 d6 d7).extract 3 = some d3 ∧
      (SIMDVec_f_64_8.ofScalars d0 d1 d2 d3 d4 d5 d6 d7).extract 4 = some d4 ∧
      (SIMDVec_f_64_8.ofScalars d0 d1 d2 d3 d4 d5 d6 d7).extract 5 = some d5 ∧
      (SIMDVec_f_64_8.ofScalars d0 d1 d2 d3 d4 d5 d6 d7).extract 6 = some d6 ∧
      (SIMDVec_f_64_8.ofScalars d0 d1 d2 d3 d4 d5 d6 d7).extract 7 = some d7) ∧
    (SIMDVec_f_64_8.ofScalars d0 d1 d2 d3 d4 d5 d6 d7).mVecLo =
      { d0 := d0, d1 := d1, d2 := d2, d3 := d3 } ∧
    (SIMDVec_f_64_8.ofScalars d0 d1 d2 d3 d4 d5 d6 d7).mVecHi =
      { d0 := d4, d1 := d5, d2 := d6, d3 := d7 } := by
  refine ⟨⟨rfl, rfl⟩, ⟨?_, ?_, ?_, ?_, ?_, ?_, ?_, ?_⟩, rfl, rfl⟩ <;>
    simp [SIMDVec_f_64_8.ofScalars, _mm256_setr_pd, SIMDVec_f_64_8.extract,
      SIMDVec_f_64_8.rawScratch, _mm256_store_pd, _mm256_storeu_pd, Mem.write]

/-- C18: the single-scalar constructors broadcast: `SIMDVec_u(s)` has `extract(i) = s` for
both lanes, and `SIMDVec_f(d)` has `extract(i) = d` for each of the eight lanes. -/
theorem C18_broadcast_constructors (s d : Nat) :
    ((SIMDVec_u_32_2.ofScalar s).extract 0 = some s ∧
      (SIMDVec_u_32_2.ofScalar s).extract 1 = some s) ∧
    ((SIMDVec_f_64_8.ofScalar d).extract 0 = some d ∧
      (SIMDVec_f_64_8.ofScalar d).extract 1 = some d ∧
      (SIMDVec_f_64_8.ofScalar d).extract 2 = some d ∧
      (SIMDVec_f_64_8.ofScalar d).extract 3 = some d ∧
      (SIMDVec_f_64_8.ofScalar d).extract 4 = some d ∧
      (SIMDVec_f_64_8.ofScalar d).extract 5 = some d ∧
      (SIMDVec_f_64_8.ofScalar d).extract 6 = some d ∧
      (SIMDVec_f_64_8.ofScalar d).extract 7 = some d) := by
  refine ⟨⟨rfl, rfl⟩, ⟨?_, ?_, ?_, ?_, ?_, ?_, ?_, ?_⟩⟩ <;>
    simp [SIMDVec_f_64_8.ofScalar, _mm256_set1_pd, SIMDVec_f_64_8.extract,
      SIMDVec_f_64_8.rawScratch, _mm256_store_pd, _mm256_storeu_pd, Mem.write]

/-- C19: the pointer constructors load consecutive scalars from the first offset on:
`SIMDVec_u(p)` has lane `i = p[i]` for both lanes; `SIMDVec_f(p)` has lane `i = p[i]` for each
`i < 8` and is the vector `load(p)` leaves in any receiver; both leave the memory as it
was. -/
theorem C19_pointer_constructors (memU : Mem) (p : Nat) (memF : Mem) (q : Nat)
    (v0 w : SIMDVec_f_64_8) (hu : p + 2 ≤ memU.length) (hf : q + 8 ≤ memF.length) :
    (∃ u, SIMDVec_u_32_2.ofPtr memU p = some (u, memU) ∧
      u.extract 0 = memU[p]? ∧ u.extract 1 = memU[p + 1]? ∧
      (u.extract 0).isSome ∧ (u.extract 1).isSome) ∧
    (∃ f, SIMDVec_f_64_8.ofPtr v0 memF q = some (f, memF) ∧ w.load memF q = some f ∧
      ∀ i, i < 8 → f.extract i = memF[q + i]? ∧ (f.extract i).isSome) := by
  constructor
  · have e0 : memU[p]? = some memU[p] := List.getElem?_eq_getElem (by omega)
    have e1 : memU[p + 1]? = some memU[p + 1] := List.getElem?_eq_getElem (by omega)
    refine ⟨{ mVec0 := memU[p], mVec1 := memU[p + 1] }, ?_, ?_, ?_, rfl, rfl⟩
    · simp [SIMDVec_u_32_2.ofPtr, e0, e1]
    · rw [e0]; rfl
    · rw [e1]; rfl
  · have e0 : memF[q]? = some memF[q] := List.getElem?_eq_getElem (by omega)
    have e1 : memF[q + 1]? = some memF[q + 1] := List.getElem?_eq_getElem (by omega)
    have e2 : memF[q + 2]? = some memF[q + 2] := List.getElem?_eq_getElem (by omega)
    have e3 : memF[q + 3]? = some memF[q + 3] := List.getElem?_eq_getElem (by omega)
    have e4 : memF[q + 4]? = some memF[q + 4] := List.getElem?_eq_getElem (by omega)
    have e5 : memF[q + 5]? = some memF[q + 5] := List.getElem?_eq_getElem (by omega)
    have e6 : memF[q + 6]? = some memF[q + 6] := List.getElem?_eq_getElem (by omega)
    have e7 : memF[q + 7]? = some memF[q + 7] := List.getElem?_eq_getElem (by omega)
    have hl : ∀ x : SIMDVec_f_64_8, x.load memF q =
        some { mVecLo := { d0 := memF[q], d1 := memF[q + 1], d2 := memF[q + 2],
                           d3 := memF[q + 3] },
               mVecHi := { d0 := memF[q + 4], d1 := memF[q + 5], d2 := memF[q + 6],
                           d3 := memF[q + 7] } } := by
      intro x
      apply load_eq_some
      intro i hi
      interval_cases i <;> simp [SIMDVec_f_64_8.lanes, e0, e1, e2, e3, e4, e5, e6, e7]
    refine ⟨_, ?_, hl w, ?_⟩
    · simp [SIMDVec_f_64_8.ofPtr, hl v0]
    · intro i hi
      rw [extract_eq_lanes _ i hi]
      interval_cases i <;> simp [SIMDVec_f_64_8.lanes, e0, e1, e2, e3, e4, e5, e6, e7]

/-- C19 on the cells `[10, 20, 30]` read at 1 and the cells 0..9 read at 2. -/
theorem C19_pointer_constructors_witness :
    (1 + 2 ≤ ([10, 20, 30] : Mem).length ∧
      2 + 8 ≤ ([0, 1, 2, 3, 4, 5, 6, 7, 8, 9] : Mem).length) ∧
    ((∃ u, SIMDVec_u_32_2.ofPtr [10, 20, 30] 1 = some (u, [10, 20, 30]) ∧
      u.extract 0 = ([10, 20, 30] : Mem)[1]? ∧ u.extract 1 = ([10, 20, 30] : Mem)[1 + 1]? ∧
      (u.extract 0).isSome ∧ (u.extract 1).isSome) ∧
    (∃ f, SIMDVec_f_64_8.ofPtr (SIMDVec_f_64_8.ofScalar 0) [0, 1, 2, 3, 4, 5, 6, 7, 8, 9] 2 =
        some (f, [0, 1, 2, 3, 4, 5, 6, 7, 8, 9]) ∧
      (SIMDVec_f_64_8.ofScalar 77).load [0, 1, 2, 3, 4, 5, 6, 7, 8, 9] 2 = some f ∧
      ∀ i, i < 8 → f.extract i = ([0, 1, 2, 3, 4, 5, 6, 7, 8, 9] : Mem)[2 + i]? ∧
        (f.extract i).isSome)) :=
  ⟨⟨by decide, by decide⟩,
    C19_pointer_constructors [10, 20, 30] 1 [0, 1, 2, 3, 4, 5, 6, 7, 8, 9] 2
      (SIMDVec_f_64_8.ofScalar 0) (SIMDVec_f_64_8.ofScalar 77) (by decide) (by decide)⟩

/-! ### The trait table -/

/-- C20: every record `(T, N)` of `SIMDVec_f_traits` with `N` even has `HALF_LEN_VEC_TYPE`
equal to `SIMDVec_f<T, N/2>`, and `(T, N/2)` is again a record; taking the half-width type
`k = log2 N` times (`2^k = N`) from any record reaches `(T, 1)`, and each of the `k` steps
lands on `(T, N / 2^j)`, a record of the table. -/
theorem C20_half_width_closure (r : TraitRecord) (hr : r ∈ SIMDVec_f_traits_specializations) :
    (r.VEC_LEN % 2 = 0 →
      r.HALF_LEN_VEC_TYPE = some (CType.SIMDVec_f r.SCALAR_FLOAT_TYPE (r.VEC_LEN / 2)) ∧
      hasTraitRecord r.SCALAR_FLOAT_TYPE (r.VEC_LEN / 2) = true) ∧
    ∃ k, k < 6 ∧ 2 ^ k = r.VEC_LEN ∧
      halfLenVecIter k (r.SCALAR_FLOAT_TYPE, r.VEC_LEN) = some (r.SCALAR_FLOAT_TYPE, 1) ∧
      ∀ j, j ≤ k →
        halfLenVecIter j (r.SCALAR_FLOAT_TYPE, r.VEC_LEN) =
          some (r.SCALAR_FLOAT_TYPE, r.VEC_LEN / 2 ^ j) ∧
        hasTraitRecord r.SCALAR_FLOAT_TYPE (r.VEC_LEN / 2 ^ j) = true := by
  revert r
  decide

/-- C20 at the record `SIMDVec_f_traits<double, 8>`. -/
theorem C20_half_width_closure_witness :
    (SIMDVec_f_traits .double 8 ∈ SIMDVec_f_traits_specializations) ∧
    ((SIMDVec_f_traits .double 8).VEC_LEN % 2 = 0 →
      (SIMDVec_f_traits .double 8).HALF_LEN_VEC_TYPE =
        some (CType.SIMDVec_f (SIMDVec_f_traits .double 8).SCALAR_FLOAT_TYPE
          ((SIMDVec_f_traits .double 8).VEC_LEN / 2)) ∧
      hasTraitRecord (SIMDVec_f_traits .double 8).SCALAR_FLOAT_TYPE
        ((SIMDVec_f_traits .double 8).VEC_LEN / 2) = true) ∧
    ∃ k, k < 6 ∧ 2 ^ k = (SIMDVec_f_traits .double 8).VEC_LEN ∧
      halfLenVecIter k ((SIMDVec_f_traits .double 8).SCALAR_FLOAT_TYPE,
          (SIMDVec_f_traits .double 8).VEC_LEN) =
        some ((SIMDVec_f_traits .double 8).SCALAR_FLOAT_TYPE, 1) ∧
      ∀ j, j ≤ k →
        halfLenVecIter j ((SIMDVec_f_traits .double 8).SCALAR_FLOAT_TYPE,
            (SIMDVec_f_traits .double 8).VEC_LEN) =
          some ((SIMDVec_f_traits .double 8).SCALAR_FLOAT_TYPE,
            (SIMDVec_f_traits .double 8).VEC_LEN / 2 ^ j) ∧
        hasTraitRecord (SIMDVec_f_traits .double 8).SCALAR_FLOAT_TYPE
          ((SIMDVec_f_traits .double 8).VEC_LEN / 2 ^ j) = true :=
  ⟨by decide, C20_half_width_closure (SIMDVec_f_traits .double 8) (by decide)⟩

/-- The chain of half-width types from `SIMDVec_f_traits<float, 32>` evaluated. -/
theorem half_width_chain_example :
    [halfLenVec .float 32, halfLenVec .float 16, halfLenVec .float 8, halfLenVec .float 4,
      halfLenVec .float 2, halfLenVec .float 1] =
    [some (.float, 16), some (.float, 8), some (.float, 4), some (.float, 2),
      some (.float, 1), none] := by
  decide

/-! ### Width 1, masks and lookup in the trait table -/

/-- C21: a record of `SIMDVec_f_traits` defines `HALF_LEN_VEC_TYPE` exactly when its lane count
is greater than 1 (the records `(float, 1)` and `(double, 1)` define none); the specialization
`SIMDVec_f<T, 1>` has no `SIMDVecPackableInterface` base, the generic `SIMDVec_f<T, N>` has
one, and so the class of a record is packable exactly when its lane count is greater than 1. -/
theorem C21_no_pack_at_width_one :
    (∀ r ∈ SIMDVec_f_traits_specializations,
      (r.HALF_LEN_VEC_TYPE.isSome = true ↔ 1 < r.VEC_LEN)) ∧
    (SIMDVec_f_traits .float 1).HALF_LEN_VEC_TYPE = none ∧
    (SIMDVec_f_traits .double 1).HALF_LEN_VEC_TYPE = none ∧
    (∀ T, (SIMDVec_f_proto_len1_bases T).any BaseClass.isPackable = false) ∧
    (∀ T N, (SIMDVec_f_proto_generic_bases T N).any BaseClass.isPackable = true) ∧
    (∀ r ∈ SIMDVec_f_traits_specializations,
      ((SIMDVec_f_proto_bases r.SCALAR_FLOAT_TYPE r.VEC_LEN).any BaseClass.isPackable = true ↔
        1 < r.VEC_LEN)) := by
  refine ⟨by decide, by decide, by decide, ?_, ?_, by decide⟩
  · intro T
    simp [SIMDVec_f_proto_len1_bases, SIMDVec_f_proto_floatInterface, BaseClass.isPackable]
  · intro T N
    simp [SIMDVec_f_proto_generic_bases, BaseClass.isPackable]

/-- C22: every record `(T, N)` of `SIMDVec_f_traits` has `MASK_TYPE = SIMDVecMask<N>`;
`SIMDVec_u<uint32_t,2>` passes `SIMDVecMask<2>` to its interface and takes `SIMDVecMask<2>` in
each masked member function; the AVX `SIMDVec_f<double,8>` passes `SIMDVecMask<8>` to its
interface and takes `SIMDVecMask<8>` in each masked member function. -/
theorem C22_mask_lane_count :
    (∀ r ∈ SIMDVec_f_traits_specializations,
      r.MASK_TYPE = some (CType.SIMDVecMask r.VEC_LEN)) ∧
    (SIMDVec_u_32_2_bases.head? =
        some (BaseClass.SIMDVecUnsignedInterface (.SIMDVec_u .uint32_t 2) .uint32_t 2
          (.SIMDVecMask 2) (.SIMDVecSwizzle 2)) ∧
      ∀ op ∈ SIMDVec_u_32_2_maskedOps, op.2 = CType.SIMDVecMask 2) ∧
    ((∀ b ∈ SIMDVec_f_64_8_bases, ∀ args, b = BaseClass.SIMDVecFloatInterface args →
        args.VEC_LEN = 8 ∧ args.MASK_TYPE = some (CType.SIMDVecMask 8)) ∧
      (∃ args, BaseClass.SIMDVecFloatInterface args ∈ SIMDVec_f_64_8_bases) ∧
      ∀ op ∈ SIMDVec_f_64_8_maskedOps, op.2 = CType.SIMDVecMask 8) := by
  refine ⟨by decide, ⟨by decide, by decide⟩, ?_, ?_, by decide⟩
  · intro b hb args hargs
    subst hargs
    simp [SIMDVec_f_64_8_bases] at hb
    subst hb
    exact ⟨rfl, rfl⟩
  · exact ⟨_, List.mem_cons_self _ _⟩

/-- A lookup that matches no explicit specialization yields the generic template. -/
theorem traits_generic_of_no_record (T : CScalar) (N : Nat) (h : hasTraitRecord T N = false) :
    SIMDVec_f_traits T N = SIMDVec_f_traits_generic T N := by
  unfold hasTraitRecord at h
  have hf : SIMDVec_f_traits_specializations.find?
      (fun r => r.SCALAR_FLOAT_TYPE == T && r.VEC_LEN == N) = none := by
    rw [List.find?_eq_none]
    intro r hr
    have := List.any_eq_false.mp h r hr
    simpa using this
  simp only [SIMDVec_f_traits, hf]

/-- C23: `SIMDVec_f_traits` is a partial function of (scalar type, lane count): two records
with the same pair are the same record, and the lookup of a record's pair returns that
record; a pair without a record resolves to the generic template, which defines no typedef
at all, as for `(double, 32)` and `(float, 3)`. -/
theorem C23_traits_partial_function :
    (SIMDVec_f_traits_specializations.map fun r => (r.SCALAR_FLOAT_TYPE, r.VEC_LEN)).Nodup ∧
    (∀ r1 ∈ SIMDVec_f_traits_specializations, ∀ r2 ∈ SIMDVec_f_traits_specializations,
      r1.SCALAR_FLOAT_TYPE = r2.SCALAR_FLOAT_TYPE → r1.VEC_LEN = r2.VEC_LEN → r1 = r2) ∧
    (∀ r ∈ SIMDVec_f_traits_specializations,
      SIMDVec_f_traits r.SCALAR_FLOAT_TYPE r.VEC_LEN = r) ∧
    (∀ T N, hasTraitRecord T N = false →
      SIMDVec_f_traits T N = SIMDVec_f_traits_generic T N) ∧
    (∀ T N, (SIMDVec_f_traits_generic T N).HALF_LEN_VEC_TYPE = none ∧
      (SIMDVec_f_traits_generic T N).VEC_UINT_TYPE = none ∧
      (SIMDVec_f_traits_generic T N).VEC_INT_TYPE = none ∧
      (SIMDVec_f_traits_generic T N).SCALAR_INT_TYPE = none ∧
      (SIMDVec_f_traits_generic T N).SCALAR_UINT_TYPE = none ∧
      (SIMDVec_f_traits_generic T N).SCALAR_TYPE_PTR = none ∧
      (SIMDVec_f_traits_generic T N).MASK_TYPE = none ∧
      (SIMDVec_f_traits_generic T N).SWIZZLE_MASK_TYPE = none) ∧
    (hasTraitRecord .double 32 = false ∧
      SIMDVec_f_traits .double 32 = SIMDVec_f_traits_generic .double 32) ∧
    (hasTraitRecord .float 3 = false ∧
      SIMDVec_f_traits .float 3 = SIMDVec_f_traits_generic .float 3) := by
  refine ⟨by decide, by decide, by decide, traits_generic_of_no_record, ?_,
    ⟨by decide, by decide⟩, ⟨by decide, by decide⟩⟩
  intro T N
  exact ⟨rfl, rfl, rfl, rfl, rfl, rfl, rfl, rfl⟩

/-! ### The prototype `SIMDVec_f<T, N>` -/

/-- C24 (code defect): the UTOF and ITOF constructors of the prototype `SIMDVec_f<T, N>` have
empty bodies: the constructed vector is the default-initialised register whatever the
argument is, so the arguments with lanes `[1, 1]` and `[2, 2]` give the same vector and
lane 0 cannot be both 1.0f (`0x3F800000`) and 2.0f (`0x40000000`). -/
theorem C24_conversion_ignores_argument (mVec : SIMDVecEmuRegister) :
    SIMDVec_f_proto.ofVecUint mVec [1, 1] = SIMDVec_f_proto.ofVecUint mVec [2, 2] ∧
    SIMDVec_f_proto.ofVecInt mVec [1, 1] = SIMDVec_f_proto.ofVecInt mVec [2, 2] ∧
    SIMDVec_f_proto.ofVecUint mVec [1, 1] = { mVec := mVec } ∧
    SIMDVec_f_proto.ofVecInt mVec [1, 1] = { mVec := mVec } ∧
    ¬ ((SIMDVec_f_proto.ofVecUint mVec [1, 1]).mVec.cells[0]? = some 0x3F800000 ∧
      (SIMDVec_f_proto.ofVecUint mVec [2, 2]).mVec.cells[0]? = some 0x40000000) ∧
    ¬ ((SIMDVec_f_proto.ofVecInt mVec [1, 1]).mVec.cells[0]? = some 0x3F800000 ∧
      (SIMDVec_f_proto.ofVecInt mVec [2, 2]).mVec.cells[0]? = some 0x40000000) := by
  refine ⟨rfl, rfl, rfl, rfl, ?_, ?_⟩ <;>
    · rintro ⟨h1, h2⟩
      simp only [SIMDVec_f_proto.ofVecUint, SIMDVec_f_proto.ofVecInt] at h1 h2
      rw [h1] at h2
      exact absurd h2 (by decide)

/-- Issuing `insert(j, a[j])` for every position `j` of `a`, in order, on a register with as
many cells as `a` has elements fills the register with `a`. -/
theorem insertAll_enumFrom (a : List Nat) :
    ∀ (pre cells : List Nat), a.length = cells.length →
      SIMDVecEmuRegister.insertAll { cells := pre ++ cells } (a.enumFrom pre.length) =
        some { cells := pre ++ a } := by
  induction a with
  | nil =>
    intro pre cells h
    have hc : cells = [] := List.length_eq_zero.mp h.symm
    subst hc
    rfl
  | cons x a ih =>
    intro pre cells h
    cases cells with
    | nil => simp at h
    | cons y cells =>
      have hlen : a.length = cells.length := by simpa using h
      have hlt : pre.length < (pre ++ y :: cells).length := by simp
      have hset : (pre ++ y :: cells).set pre.length x = (pre ++ [x]) ++ cells := by
        simp
      have := ih (pre ++ [x]) cells hlen
      simp only [List.length_append, List.length_singleton] at this
      simp only [List.enumFrom_cons, SIMDVecEmuRegister.insertAll, SIMDVecEmuRegister.insert,
        hlt, if_true, hset, Option.some_bind, this]
      simp

/-- Filling a register from its first cell on. -/
theorem insertAll_enum (a : List Nat) (reg : SIMDVecEmuRegister)
    (h : reg.cells.length = a.length) :
    reg.insertAll (a.enumFrom 0) = some { cells := a } := by
  have := insertAll_enumFrom a [] reg.cells h.symm
  simpa using this

/-- C25 fails for the prototype `SIMDVec_f<float, 2>`, a record of the table: the class offers
constructors of 4, 8, 16 and 32 scalars besides the one of 2, and the constructor of 32
scalars calls `mVec.insert` with indices up to 31 on the two-cell register. -/
theorem C25_constructor_arity_mismatch :
    hasTraitRecord .float 2 = true ∧
    SIMDVec_f_proto.ctorArities 2 = [2, 4, 8, 16, 32] ∧
    (32 ∈ SIMDVec_f_proto.ctorArities 2 ∧ 32 ≠ 2) ∧
    SIMDVec_f_proto.ofScalars32 { cells := [0, 0] }
      0 1 2 3 4 5 6 7 8 9 10 11 12 13 14 15 16 17 18 19 20 21 22 23 24 25 26 27 28 29 30 31 = none := by
  decide

/-- C25 (amended): for every lane count `N > 1` of the trait table the prototype offers a
constructor of exactly `N` scalars (among those of 2, 4, 8, 16 and 32 scalars; for `N = 1`
it offers none), and that constructor fills lanes `0..N-1` of the `N`-cell register in
argument order, every `insert` falling inside the register. -/
theorem C25_exact_arity_constructor (r2 r4 r8 r16 r32 : SIMDVecEmuRegister)
    (i0 i1 i2 i3 i4 i5 i6 i7 i8 i9 i10 i11 i12 i13 i14 i15
      i16 i17 i18 i19 i20 i21 i22 i23 i24 i25 i26 i27 i28 i29 i30 i31 : Nat)
    (h2 : r2.cells.length = 2) (h4 : r4.cells.length = 4) (h8 : r8.cells.length = 8)
    (h16 : r16.cells.length = 16) (h32 : r32.cells.length = 32) :
    (∀ r ∈ SIMDVec_f_traits_specializations,
      1 < r.VEC_LEN → r.VEC_LEN ∈ SIMDVec_f_proto.ctorArities r.VEC_LEN) ∧
    SIMDVec_f_proto.ctorArities 1 = [] ∧
    SIMDVec_f_proto.ofScalars2 r2 i0 i1 =
      some { mVec := { cells := [i0, i1] } } ∧
    SIMDVec_f_proto.ofScalars4 r4 i0 i1 i2 i3 =
      some { mVec := { cells := [i0, i1, i2, i3] } } ∧
    SIMDVec_f_proto.ofScalars8 r8 i0 i1 i2 i3 i4 i5 i6 i7 =
      some { mVec := { cells := [i0, i1, i2, i3, i4, i5, i6, i7] } } ∧
    SIMDVec_f_proto.ofScalars16 r16 i0 i1 i2 i3 i4 i5 i6 i7 i8 i9 i10 i11 i12 i13 i14 i15 =
      some { mVec := { cells := [i0, i1, i2, i3, i4, i5, i6, i7, i8, i9, i10, i11, i12, i13,
        i14, i15] } } ∧
    SIMDVec_f_proto.ofScalars32 r32 i0 i1 i2 i3 i4 i5 i6 i7 i8 i9 i10 i11 i12 i13 i14 i15
      i16 i17 i18 i19 i20 i21 i22 i23 i24 i25 i26 i27 i28 i29 i30 i31 =
      some { mVec := { cells := [i0, i1, i2, i3, i4, i5, i6, i7, i8, i9, i10, i11, i12, i13,
        i14, i15, i16, i17, i18, i19, i20, i21, i22, i23, i24, i25, i26, i27, i28, i29, i30,
        i31] } } := by
  refine ⟨by decide, by decide, ?_, ?_, ?_, ?_, ?_⟩
  · exact congrArg (Option.map _) (insertAll_enum [i0, i1] r2 h2)
  · exact congrArg (Option.map _) (insertAll_enum [i0, i1, i2, i3] r4 h4)
  · exact congrArg (Option.map _) (insertAll_enum [i0, i1, i2, i3, i4, i5, i6, i7] r8 h8)
  · exact congrArg (Option.map _) (insertAll_enum
      [i0, i1, i2, i3, i4, i5, i6, i7, i8, i9, i10, i11, i12, i13, i14, i15] r16 h16)
  · exact congrArg (Option.map _) (insertAll_enum
      [i0, i1, i2, i3, i4, i5, i6, i7, i8, i9, i10, i11, i12, i13, i14, i15, i16, i17, i18, i19, i20, i21, i22, i23, i24, i25, i26, i27, i28, i29, i30, i31]
      r32 h32)

/-- C25 (amended) on zero-filled registers of 2, 4, 8, 16 and 32 cells with the arguments
100, 101, ... -/
theorem C25_exact_arity_constructor_witness :
    (
      ({ cells := List.replicate 2 0 } : SIMDVecEmuRegister).cells.length = 2 ∧
      ({ cells := List.replicate 4 0 } : SIMDVecEmuRegister).cells.length = 4 ∧
      ({ cells := List.replicate 8 0 } : SIMDVecEmuRegister).cells.length = 8 ∧
      ({ cells := List.replicate 16 0 } : SIMDVecEmuRegister).cells.length = 16 ∧
      ({ cells := List.replicate 32 0 } : SIMDVecEmuRegister).cells.length = 32) ∧
    ((∀ r ∈ SIMDVec_f_traits_specializations,
      1 < r.VEC_LEN → r.VEC_LEN ∈ SIMDVec_f_proto.ctorArities r.VEC_LEN) ∧
    SIMDVec_f_proto.ctorArities 1 = [] ∧
     SIMDVec_f_proto.ofScalars2 ({ cells := List.replicate 2 0 } : SIMDVecEmuRegister) 100 101
       =
       some { mVec := { cells := [100, 101] } } ∧
     SIMDVec_f_proto.ofScalars4 ({ cells := List.replicate 4 0 } : SIMDVecEmuRegister) 100 101
       102 103 =
       some { mVec := { cells := [100, 101, 102, 103] } } ∧
     SIMDVec_f_proto.ofScalars8 ({ cells := List.replicate 8 0 } : SIMDVecEmuRegister) 100 101
       102 103 104 105 106 107 =
       some { mVec := { cells := [100, 101, 102, 103, 104, 105, 106, 107] } } ∧
     SIMDVec_f_proto.ofScalars16 ({ cells := List.replicate 16 0 } : SIMDVecEmuRegister) 100
       101 102 103 104 105 106 107 108 109 110 111 112 113 114 115 =
       some { mVec := { cells := [100, 101, 102, 103, 104, 105, 106, 107, 108, 109, 110, 111,
         112, 113, 114, 115] } } ∧
     SIMDVec_f_proto.ofScalars32 ({ cells := List.replicate 32 0 } : SIMDVecEmuRegister) 100
       101 102 103 104 105 106 107 108 109 110 111 112 113 114 115 116 117 118 119 120 121 122
       123 124 125 126 127 128 129 130 131 =
       some { mVec := { cells := [100, 101, 102, 103, 104, 105, 106, 107, 108, 109, 110, 111,
         112, 113, 114, 115, 116, 117, 118, 119, 120, 121, 122, 123, 124, 125, 126, 127, 128,
         129, 130, 131] } }) :=
  ⟨⟨rfl, rfl, rfl, rfl, rfl⟩,
    C25_exact_arity_constructor ({ cells := List.replicate 2 0 } : SIMDVecEmuRegister)
      ({ cells := List.replicate 4 0 } : SIMDVecEmuRegister)
      ({ cells := List.replicate 8 0 } : SIMDVecEmuRegister)
      ({ cells := List.replicate 16 0 } : SIMDVecEmuRegister)
      ({ cells := List.replicate 32 0 } : SIMDVecEmuRegister)
      100 101 102 103 104 105 106 107 108 109 110 111 112 113 114 115 116 117 118 119 120 121
        122 123 124 125 126 127 128 129 130 131
      rfl rfl rfl rfl rfl⟩

/-! ### Frame, round trips and agreement of forms on `SIMDVec_u<uint32_t, 2>` -/

/-- C26: the non-assign operations leave the receiver as it was. On `SIMDVec_u<uint32_t,2>`:
`extract`, `operator[]`, `unique`, the four scatter forms (in-range indices) and `unpack`.
On the AVX `SIMDVec_f<double,8>`: `extract` and `operator[]` (lane index below 8), `store`,
`storea` and masked `storea` (a buffer of eight doubles, 32-byte aligned for `storea`). Each
call succeeds and the receiver after it equals the receiver before it. -/
theorem C26_receiver_unchanged (v indices : SIMDVec_u_32_2) (mask : SIMDVecMask2) (i : Nat)
    (a b : SIMDVec_u_32_1) (mem : Mem) (baseAddr : Nat) (rest : List Nat)
    (f : SIMDVec_f_64_8) (b0 b1 b2 b3 b4 b5 b6 b7 : Bool) (j : Nat) (memF : Mem) (p : Nat)
    (h0 : baseAddr + indices.mVec0 < mem.length) (h1 : baseAddr + indices.mVec1 < mem.length)
    (hj : j < 8) (hp : p + 8 ≤ memF.length) (ha : p % 4 = 0) :
    ((∃ x, v.extract_call i = some (v, x)) ∧ (∃ x, v.subscript_call i = some (v, x)) ∧
      v.unique_call.1 = v ∧
      (∀ r ∈ [v.scatter_SCATTERS mem baseAddr (indices.mVec0 :: indices.mVec1 :: rest),
          v.scatter_MSCATTERS mask mem baseAddr (indices.mVec0 :: indices.mVec1 :: rest),
          v.scatter_SCATTERV mem baseAddr indices,
          v.scatter_MSCATTERV mask mem baseAddr indices],
        ∃ mem2 q, r = some (v, mem2, q)) ∧
      (v.unpack a b).1 = v) ∧
    ((∃ x, f.extract_call j = some (f, x)) ∧ (∃ x, f.subscript_call j = some (f, x)) ∧
      (∃ mem2 q, f.store memF p = some (f, mem2, q)) ∧
      (∃ mem2 q, f.storea memF p = some (f, mem2, q)) ∧
      (∃ mem2 q, f.storea_MSTOREA (SIMDVecMask8.ofBools b0 b1 b2 b3 b4 b5 b6 b7) memF p =
        some (f, mem2, q))) := by
  have hi : i &&& 1 = 0 ∨ i &&& 1 = 1 := and_one_cases i
  obtain ⟨x, hx⟩ : ∃ x, f.extract j = some x := by
    rw [extract_eq_lanes f j hj]
    exact ⟨_, List.getElem?_eq_getElem (by rw [lanes_length]; exact hj)⟩
  obtain ⟨m1, hst, -⟩ := store_eq_some f memF p hp
  refine ⟨⟨?_, ?_, rfl, ?_, rfl⟩, ⟨?_, ?_, ⟨m1, p, hst⟩, ⟨m1, p, ?_⟩,
    ⟨_, _, mstorea_eq_some b0 b1 b2 b3 b4 b5 b6 b7 f memF p hp⟩⟩⟩
  · rcases hi with h | h <;>
      simp [SIMDVec_u_32_2.extract_call, SIMDVec_u_32_2.extract, SIMDVec_u_32_2.mVecRead, h]
  · rcases hi with h | h <;>
      simp [SIMDVec_u_32_2.subscript_call, SIMDVec_u_32_2.subscript,
        SIMDVec_u_32_2.mVecRead, h]
  · intro r hr
    simp only [List.mem_cons, List.mem_singleton, List.not_mem_nil, or_false] at hr
    rcases mask with ⟨_ | _, _ | _⟩ <;> rcases hr with rfl | rfl | rfl | rfl <;>
      simp [SIMDVec_u_32_2.scatter_SCATTERS, SIMDVec_u_32_2.scatter_MSCATTERS,
        SIMDVec_u_32_2.scatter_SCATTERV, SIMDVec_u_32_2.scatter_MSCATTERV, SIMDVecMask2.get,
        Mem.write, h0, h1]
  · exact ⟨x, by simp [SIMDVec_f_64_8.extract_call, hx]⟩
  · exact ⟨x, by simp [SIMDVec_f_64_8.subscript_call, SIMDVec_f_64_8.subscript, hx]⟩
  · rw [storea_eq_store f memF p ha]; exact hst

/-- C26 on the vector `[40, 20]` with indices `[3, 1]` and on the vector (1, ..., 8) with a
buffer at cell 4 of twelve. -/
theorem C26_receiver_unchanged_witness :
    (0 + (SIMDVec_u_32_2.ofScalars 3 1).mVec0 < ([0, 0, 0, 0] : Mem).length ∧
      0 + (SIMDVec_u_32_2.ofScalars 3 1).mVec1 < ([0, 0, 0, 0] : Mem).length ∧
      6 < 8 ∧ 4 + 8 ≤ (List.replicate 12 0 : Mem).length ∧ 4 % 4 = 0) ∧
    (((∃ x, (SIMDVec_u_32_2.ofScalars 40 20).extract_call 5 = some ((SIMDVec_u_32_2.ofScalars 40 20), x)) ∧
      (∃ x, (SIMDVec_u_32_2.ofScalars 40 20).subscript_call 5 = some ((SIMDVec_u_32_2.ofScalars 40 20), x)) ∧
      (SIMDVec_u_32_2.ofScalars 40 20).unique_call.1 = (SIMDVec_u_32_2.ofScalars 40 20) ∧
      (∀ r ∈ [(SIMDVec_u_32_2.ofScalars 40 20).scatter_SCATTERS ([0, 0, 0, 0] : Mem) 0
            ((SIMDVec_u_32_2.ofScalars 3 1).mVec0 :: (SIMDVec_u_32_2.ofScalars 3 1).mVec1 :: []),
          (SIMDVec_u_32_2.ofScalars 40 20).scatter_MSCATTERS { m0 := true, m1 := false } ([0, 0, 0, 0] : Mem) 0
            ((SIMDVec_u_32_2.ofScalars 3 1).mVec0 :: (SIMDVec_u_32_2.ofScalars 3 1).mVec1 :: []),
          (SIMDVec_u_32_2.ofScalars 40 20).scatter_SCATTERV ([0, 0, 0, 0] : Mem) 0 (SIMDVec_u_32_2.ofScalars 3 1),
          (SIMDVec_u_32_2.ofScalars 40 20).scatter_MSCATTERV { m0 := true, m1 := false } ([0, 0, 0, 0] : Mem) 0
            (SIMDVec_u_32_2.ofScalars 3 1)],
        ∃ mem2 q, r = some ((SIMDVec_u_32_2.ofScalars 40 20), mem2, q)) ∧
      ((SIMDVec_u_32_2.ofScalars 40 20).unpack { mVec0 := 0 } { mVec0 := 0 }).1 = (SIMDVec_u_32_2.ofScalars 40 20)) ∧
    ((∃ x, (SIMDVec_f_64_8.ofScalars 1 2 3 4 5 6 7 8).extract_call 6 = some ((SIMDVec_f_64_8.ofScalars 1 2 3 4 5 6 7 8), x)) ∧
      (∃ x, (SIMDVec_f_64_8.ofScalars 1 2 3 4 5 6 7 8).subscript_call 6 = some ((SIMDVec_f_64_8.ofScalars 1 2 3 4 5 6 7 8), x)) ∧
      (∃ mem2 q, (SIMDVec_f_64_8.ofScalars 1 2 3 4 5 6 7 8).store (List.replicate 12 0 : Mem) 4 =
        some ((SIMDVec_f_64_8.ofScalars 1 2 3 4 5 6 7 8), mem2, q)) ∧
      (∃ mem2 q, (SIMDVec_f_64_8.ofScalars 1 2 3 4 5 6 7 8).storea (List.replicate 12 0 : Mem) 4 =
        some ((SIMDVec_f_64_8.ofScalars 1 2 3 4 5 6 7 8), mem2, q)) ∧
      (∃ mem2 q, (SIMDVec_f_64_8.ofScalars 1 2 3 4 5 6 7 8).storea_MSTOREA
          (SIMDVecMask8.ofBools true false true false false true false true) (List.replicate 12 0 : Mem) 4 =
        some ((SIMDVec_f_64_8.ofScalars 1 2 3 4 5 6 7 8), mem2, q)))) :=
  ⟨⟨by decide, by decide, by decide, by decide, by decide⟩,
    C26_receiver_unchanged (SIMDVec_u_32_2.ofScalars 40 20) (SIMDVec_u_32_2.ofScalars 3 1) { m0 := true, m1 := false } 5 { mVec0 := 0 } { mVec0 := 0 } ([0, 0, 0, 0] : Mem) 0 [] (SIMDVec_f_64_8.ofScalars 1 2 3 4 5 6 7 8)
      true false true false false true false true 6 (List.replicate 12 0 : Mem) 4
      (by decide) (by decide) (by decide) (by decide) (by decide)⟩

/-- C27: on `SIMDVec_u<uint32_t,2>`, for every vector `v`, base memory and pair of in-range
indices that differ, `v.scatter(base, indices)` followed by `w.gather(base, indices)` on any
vector `w` leaves `w` equal to `v`, with the index-array forms and with the index-vector
forms. -/
theorem C27_scatter_gather_roundtrip (v w : SIMDVec_u_32_2) (mem : Mem)
    (baseAddr i0 i1 : Nat) (rest : List Nat)
    (h0 : baseAddr + i0 < mem.length) (h1 : baseAddr + i1 < mem.length) (hne : i0 ≠ i1) :
    ∃ mem2, v.scatter_SCATTERS mem baseAddr (i0 :: i1 :: rest) = some (v, mem2, baseAddr) ∧
      w.gather_GATHERS mem2 baseAddr (i0 :: i1 :: rest) = some (v, mem2) ∧
      v.scatter_SCATTERV mem baseAddr { mVec0 := i0, mVec1 := i1 } = some (v, mem2, baseAddr) ∧
      w.gather_GATHERV mem2 baseAddr { mVec0 := i0, mVec1 := i1 } = some (v, mem2) := by
  have e0 : ((mem.set (baseAddr + i0) v.mVec0).set (baseAddr + i1) v.mVec1)[baseAddr + i0]? =
      some v.mVec0 := by
    simp [List.getElem?_set, h0, hne, Ne.symm hne]
  have e1 : ((mem.set (baseAddr + i0) v.mVec0).set (baseAddr + i1) v.mVec1)[baseAddr + i1]? =
      some v.mVec1 := by
    simp [List.getElem?_set, h1]
  refine ⟨(mem.set (baseAddr + i0) v.mVec0).set (baseAddr + i1) v.mVec1, ?_, ?_, ?_, ?_⟩
  · simp [SIMDVec_u_32_2.scatter_SCATTERS, Mem.write, h0, h1]
  · simp [SIMDVec_u_32_2.gather_GATHERS, e0, e1]
  · simp [SIMDVec_u_32_2.scatter_SCATTERV, Mem.write, h0, h1]
  · simp [SIMDVec_u_32_2.gather_GATHERV, e0, e1]

/-- C27 on the vector `[40, 20]` with the indices `[3, 1]` and a zeroed buffer of four cells. -/
theorem C27_scatter_gather_roundtrip_witness :
    (0 + 3 < ([0, 0, 0, 0] : Mem).length ∧ 0 + 1 < ([0, 0, 0, 0] : Mem).length ∧ 3 ≠ 1) ∧
    ∃ mem2, (SIMDVec_u_32_2.ofScalars 40 20).scatter_SCATTERS ([0, 0, 0, 0] : Mem) 0 [3, 1] = some ((SIMDVec_u_32_2.ofScalars 40 20), mem2, 0) ∧
      (SIMDVec_u_32_2.ofScalar 7).gather_GATHERS mem2 0 [3, 1] = some ((SIMDVec_u_32_2.ofScalars 40 20), mem2) ∧
      (SIMDVec_u_32_2.ofScalars 40 20).scatter_SCATTERV ([0, 0, 0, 0] : Mem) 0 { mVec0 := 3, mVec1 := 1 } = some ((SIMDVec_u_32_2.ofScalars 40 20), mem2, 0) ∧
      (SIMDVec_u_32_2.ofScalar 7).gather_GATHERV mem2 0 { mVec0 := 3, mVec1 := 1 } =
        some ((SIMDVec_u_32_2.ofScalars 40 20), mem2) :=
  ⟨⟨by decide, by decide, by decide⟩,
    C27_scatter_gather_roundtrip (SIMDVec_u_32_2.ofScalars 40 20) (SIMDVec_u_32_2.ofScalar 7) ([0, 0, 0, 0] : Mem) 0 3 1 []
      (by decide) (by decide) (by decide)⟩

/-- C28: on `SIMDVec_u<uint32_t,2>`, when both indices are the in-range index `k`, after the
unmasked scatter the cell `base[k]` holds lane 1 of the vector (stored last), and a following
gather with the same indices leaves a vector whose two lanes both equal that lane 1. -/
theorem C28_scatter_collision (v w : SIMDVec_u_32_2) (mem : Mem) (baseAddr k : Nat)
    (rest : List Nat) (hk : baseAddr + k < mem.length) :
    ∃ mem2, v.scatter_SCATTERS mem baseAddr (k :: k :: rest) = some (v, mem2, baseAddr) ∧
      v.scatter_SCATTERV mem baseAddr { mVec0 := k, mVec1 := k } = some (v, mem2, baseAddr) ∧
      mem2[baseAddr + k]? = some v.mVec1 ∧
      w.gather_GATHERS mem2 baseAddr (k :: k :: rest) =
        some ({ mVec0 := v.mVec1, mVec1 := v.mVec1 }, mem2) ∧
      w.gather_GATHERV mem2 baseAddr { mVec0 := k, mVec1 := k } =
        some ({ mVec0 := v.mVec1, mVec1 := v.mVec1 }, mem2) := by
  have e : ((mem.set (baseAddr + k) v.mVec0).set (baseAddr + k) v.mVec1)[baseAddr + k]? =
      some v.mVec1 := by
    simp [List.getElem?_set, hk]
  refine ⟨(mem.set (baseAddr + k) v.mVec0).set (baseAddr + k) v.mVec1, ?_, ?_, e, ?_, ?_⟩
  · simp [SIMDVec_u_32_2.scatter_SCATTERS, Mem.write, hk]
  · simp [SIMDVec_u_32_2.scatter_SCATTERV, Mem.write, hk]
  · simp [SIMDVec_u_32_2.gather_GATHERS, List.getElem?_set, hk]
  · simp [SIMDVec_u_32_2.gather_GATHERV, List.getElem?_set, hk]

/-- C28 on the vector `[40, 20]` with both indices equal to 1. -/
theorem C28_scatter_collision_witness :
    (0 + 1 < ([0, 0, 0, 0] : Mem).length) ∧
    ∃ mem2, (SIMDVec_u_32_2.ofScalars 40 20).scatter_SCATTERS ([0, 0, 0, 0] : Mem) 0 [1, 1] = some ((SIMDVec_u_32_2.ofScalars 40 20), mem2, 0) ∧
      (SIMDVec_u_32_2.ofScalars 40 20).scatter_SCATTERV ([0, 0, 0, 0] : Mem) 0 { mVec0 := 1, mVec1 := 1 } = some ((SIMDVec_u_32_2.ofScalars 40 20), mem2, 0) ∧
      mem2[0 + 1]? = some (SIMDVec_u_32_2.ofScalars 40 20).mVec1 ∧
      (SIMDVec_u_32_2.ofScalar 7).gather_GATHERS mem2 0 [1, 1] =
        some ({ mVec0 := (SIMDVec_u_32_2.ofScalars 40 20).mVec1, mVec1 := (SIMDVec_u_32_2.ofScalars 40 20).mVec1 }, mem2) ∧
      (SIMDVec_u_32_2.ofScalar 7).gather_GATHERV mem2 0 { mVec0 := 1, mVec1 := 1 } =
        some ({ mVec0 := (SIMDVec_u_32_2.ofScalars 40 20).mVec1, mVec1 := (SIMDVec_u_32_2.ofScalars 40 20).mVec1 }, mem2) :=
  ⟨by decide,
    C28_scatter_collision (SIMDVec_u_32_2.ofScalars 40 20) (SIMDVec_u_32_2.ofScalar 7) ([0, 0, 0, 0] : Mem) 0 1 [] (by decide)⟩

/-- C29: on `SIMDVec_u<uint32_t,2>`, for every receiver, base memory, mask, index vector `iv`
and index array `ia` with `ia[0] = iv[0]` and `ia[1] = iv[1]`, GATHERS with `ia` and GATHERV
with `iv` give the same result, and so do SCATTERS and SCATTERV, MGATHERS and MGATHERV,
MSCATTERS and MSCATTERV. -/
theorem C29_array_and_vector_forms_agree (v iv : SIMDVec_u_32_2) (mask : SIMDVecMask2)
    (mem : Mem) (baseAddr : Nat) (rest : List Nat) :
    v.gather_GATHERS mem baseAddr (iv.mVec0 :: iv.mVec1 :: rest) =
      v.gather_GATHERV mem baseAddr iv ∧
    v.scatter_SCATTERS mem baseAddr (iv.mVec0 :: iv.mVec1 :: rest) =
      v.scatter_SCATTERV mem baseAddr iv ∧
    v.gather_MGATHERS mask mem baseAddr (iv.mVec0 :: iv.mVec1 :: rest) =
      v.gather_MGATHERV mask mem baseAddr iv ∧
    v.scatter_MSCATTERS mask mem baseAddr (iv.mVec0 :: iv.mVec1 :: rest) =
      v.scatter_MSCATTERV mask mem baseAddr iv := by
  refine ⟨?_, ?_, ?_, ?_⟩ <;>
    simp [SIMDVec_u_32_2.gather_GATHERS, SIMDVec_u_32_2.gather_GATHERV,
      SIMDVec_u_32_2.gather_MGATHERS, SIMDVec_u_32_2.gather_MGATHERV,
      SIMDVec_u_32_2.scatter_SCATTERS, SIMDVec_u_32_2.scatter_SCATTERV,
      SIMDVec_u_32_2.scatter_MSCATTERS, SIMDVec_u_32_2.scatter_MSCATTERV]

/-- C30: `SIMDVec_u<uint32_t,2>::unique()` returns true exactly when the two lanes hold
different values; it is false for every vector built by the broadcast constructor, and for
`SIMDVec_u(i0, i1)` it is true exactly when `i0` differs from `i1`. -/
theorem C30_unique (v : SIMDVec_u_32_2) (s i0 i1 : Nat) :
    (v.unique = true ↔ v.mVec0 ≠ v.mVec1) ∧
    (v.unique = true ↔ v.extract 0 ≠ v.extract 1) ∧
    (SIMDVec_u_32_2.ofScalar s).unique = false ∧
    ((SIMDVec_u_32_2.ofScalars i0 i1).unique = true ↔ i0 ≠ i1) := by
  refine ⟨?_, ?_, ?_, ?_⟩ <;>
    simp [SIMDVec_u_32_2.unique, SIMDVec_u_32_2.ofScalar, SIMDVec_u_32_2.ofScalars,
      SIMDVec_u_32_2.extract, SIMDVec_u_32_2.mVecRead]

/-! ### Add-assign on `SIMDVec_f<double, 8>` -/

/-- C31: on the AVX `SIMDVec_f<double,8>`, for every vector `v` and scalar `b`, ADDSA leaves
the receiver equal to what ADDVA with the broadcast of `b` leaves; for every `w`, ADDVA sets
lane `i` to the sum of lane `i` of `v` and lane `i` of `w` for each `i < 8`, each sub-register
from the matching sub-registers only, and leaves `w` as it was. The sum of doubles is the
parameter `add`. -/
theorem C31_adda (add : Nat → Nat → Nat) (v w : SIMDVec_f_64_8) (b : Nat) :
    v.adda_ADDSA add b = (v.adda_ADDVA add (SIMDVec_f_64_8.ofScalar b)).1 ∧
    (v.adda_ADDVA add w).1.lanes = List.zipWith add v.lanes w.lanes ∧
    (∀ i, i < 8 → (v.adda_ADDVA add w).1.extract i =
      (v.extract i).bind fun x => (w.extract i).map fun y => add x y) ∧
    (∀ i, i < 8 → ((v.adda_ADDVA add w).1.extract i).isSome = true) ∧
    (v.adda_ADDVA add w).1.mVecLo = _mm256_add_pd add v.mVecLo w.mVecLo ∧
    (v.adda_ADDVA add w).1.mVecHi = _mm256_add_pd add v.mVecHi w.mVecHi ∧
    (v.adda_ADDVA add w).2 = w ∧
    v.adda_ADDVA_self add = (v.adda_ADDVA add v).1 := by
  refine ⟨rfl, rfl, ?_, ?_, rfl, rfl, rfl, rfl⟩
  · intro i hi
    rw [extract_eq_lanes _ i hi, extract_eq_lanes v i hi, extract_eq_lanes w i hi]
    interval_cases i <;> rfl
  · intro i hi
    rw [extract_eq_lanes _ i hi]
    interval_cases i <;> rfl

/-- The add-assign forms evaluated with the sum of natural numbers in place of the sum of
doubles: (1, ..., 8) plus the scalar 10, and plus the vector (10, 20, ..., 80). -/
theorem adda_example :
    (SIMDVec_f_64_8.ofScalars 1 2 3 4 5 6 7 8).adda_ADDSA (fun x y => x + y) 10 =
      SIMDVec_f_64_8.ofScalars 11 12 13 14 15 16 17 18 ∧
    (SIMDVec_f_64_8.ofScalars 1 2 3 4 5 6 7 8).adda_ADDVA (fun x y => x + y)
        (SIMDVec_f_64_8.ofScalars 10 20 30 40 50 60 70 80) =
      (SIMDVec_f_64_8.ofScalars 11 22 33 44 55 66 77 88,
        SIMDVec_f_64_8.ofScalars 10 20 30 40 50 60 70 80) := by
  decide

/-! ### The AVX declaration against the trait record, and consistency of the records -/

/-- C32 (code defect): the AVX `SIMDVec_f<double,8>` passes to its interfaces the unsigned
sibling, signed sibling, scalar unsigned type, mask and half-width vector of the record
`SIMDVec_f_traits<double, 8>`, but its swizzle argument is `SIMDVecSwizzle<4>`, neither the
record's `SIMDVecSwizzle<8>` nor a descriptor of the vector's own lane count 8. -/
theorem C32_avx_swizzle_mismatch :
    SIMDVec_f_64_8_bases =
      [BaseClass.SIMDVecFloatInterface
         { DERIVED := .SIMDVec_f .double 8,
           VEC_UINT_TYPE := (SIMDVec_f_traits .double 8).VEC_UINT_TYPE,
           VEC_INT_TYPE := (SIMDVec_f_traits .double 8).VEC_INT_TYPE,
           SCALAR_FLOAT_TYPE := .double,
           VEC_LEN := 8,
           SCALAR_UINT_TYPE := (SIMDVec_f_traits .double 8).SCALAR_UINT_TYPE,
           MASK_TYPE := (SIMDVec_f_traits .double 8).MASK_TYPE,
           SWIZZLE_MASK_TYPE := some (.SIMDVecSwizzle 4) },
       BaseClass.SIMDVecPackableInterface (.SIMDVec_f .double 8)
         (SIMDVec_f_traits .double 8).HALF_LEN_VEC_TYPE] ∧
    (SIMDVec_f_traits .double 8).VEC_UINT_TYPE = some (.SIMDVec_u .uint64_t 8) ∧
    (SIMDVec_f_traits .double 8).VEC_INT_TYPE = some (.SIMDVec_i .int64_t 8) ∧
    (SIMDVec_f_traits .double 8).SCALAR_UINT_TYPE = some (.scalar .uint64_t) ∧
    (SIMDVec_f_traits .double 8).MASK_TYPE = some (.SIMDVecMask 8) ∧
    (SIMDVec_f_traits .double 8).HALF_LEN_VEC_TYPE = some (.SIMDVec_f .double 4) ∧
    (SIMDVec_f_traits .double 8).SWIZZLE_MASK_TYPE = some (.SIMDVecSwizzle 8) ∧
    (some (CType.SIMDVecSwizzle 4) ≠ (SIMDVec_f_traits .double 8).SWIZZLE_MASK_TYPE) ∧
    SIMDVec_f_64_8_bases ≠ SIMDVec_f_proto_generic_bases .double 8 := by
  decide

/-- C33: every record `(T, N)` of `SIMDVec_f_traits` is consistent: `SCALAR_UINT_TYPE` is an
unsigned and `SCALAR_INT_TYPE` a signed integer type of the bit width of `T` (`uint32_t` and
`int32_t` for `float`, `uint64_t` and `int64_t` for `double`), `VEC_UINT_TYPE` and
`VEC_INT_TYPE` are `SIMDVec_u` and `SIMDVec_i` of these types with lane count `N`,
`SCALAR_TYPE_PTR` is `T*`, `SWIZZLE_MASK_TYPE` is `SIMDVecSwizzle<N>`, `N` is a power of two and
`N * bits(T)` is at most 1024. -/
theorem C33_records_consistent :
    ∀ r ∈ SIMDVec_f_traits_specializations,
      (∃ U I, r.SCALAR_UINT_TYPE = some (.scalar U) ∧ r.SCALAR_INT_TYPE = some (.scalar I) ∧
        U.isUnsignedInt = true ∧ I.isSignedInt = true ∧
        U.bits = r.SCALAR_FLOAT_TYPE.bits ∧ I.bits = r.SCALAR_FLOAT_TYPE.bits ∧
        r.VEC_UINT_TYPE = some (.SIMDVec_u U r.VEC_LEN) ∧
        r.VEC_INT_TYPE = some (.SIMDVec_i I r.VEC_LEN) ∧
        ((r.SCALAR_FLOAT_TYPE = .float ∧ U = .uint32_t ∧ I = .int32_t) ∨
          (r.SCALAR_FLOAT_TYPE = .double ∧ U = .uint64_t ∧ I = .int64_t))) ∧
      r.SCALAR_TYPE_PTR = some (.pointer r.SCALAR_FLOAT_TYPE) ∧
      r.SWIZZLE_MASK_TYPE = some (.SIMDVecSwizzle r.VEC_LEN) ∧
      (∃ k, k < 6 ∧ 2 ^ k = r.VEC_LEN) ∧
      r.VEC_LEN * r.SCALAR_FLOAT_TYPE.bits ≤ 1024 := by
  intro r hr
  simp only [SIMDVec_f_traits_specializations, List.mem_cons, List.mem_singleton,
    List.not_mem_nil, or_false] at hr
  rcases hr with rfl | rfl | rfl | rfl | rfl | rfl | rfl | rfl | rfl | rfl | rfl
  · exact ⟨⟨.uint32_t, .int32_t, by decide⟩, by decide⟩
  · exact ⟨⟨.uint32_t, .int32_t, by decide⟩, by decide⟩
  · exact ⟨⟨.uint64_t, .int64_t, by decide⟩, by decide⟩
  · exact ⟨⟨.uint32_t, .int32_t, by decide⟩, by decide⟩
  · exact ⟨⟨.uint64_t, .int64_t, by decide⟩, by decide⟩
  · exact ⟨⟨.uint32_t, .int32_t, by decide⟩, by decide⟩
  · exact ⟨⟨.uint64_t, .int64_t, by decide⟩, by decide⟩
  · exact ⟨⟨.uint32_t, .int32_t, by decide⟩, by decide⟩
  · exact ⟨⟨.uint64_t, .int64_t, by decide⟩, by decide⟩
  · exact ⟨⟨.uint32_t, .int32_t, by decide⟩, by decide⟩
  · exact ⟨⟨.uint64_t, .int64_t, by decide⟩, by decide⟩

/-- C33 at the record `SIMDVec_f_traits<float, 32>`, the widest one. -/
theorem C33_records_consistent_witness :
    (SIMDVec_f_traits .float 32 ∈ SIMDVec_f_traits_specializations) ∧
    ((∃ U I, (SIMDVec_f_traits .float 32).SCALAR_UINT_TYPE = some (.scalar U) ∧
        (SIMDVec_f_traits .float 32).SCALAR_INT_TYPE = some (.scalar I) ∧
        U.isUnsignedInt = true ∧ I.isSignedInt = true ∧
        U.bits = (SIMDVec_f_traits .float 32).SCALAR_FLOAT_TYPE.bits ∧
        I.bits = (SIMDVec_f_traits .float 32).SCALAR_FLOAT_TYPE.bits ∧
        (SIMDVec_f_traits .float 32).VEC_UINT_TYPE =
          some (.SIMDVec_u U (SIMDVec_f_traits .float 32).VEC_LEN) ∧
        (SIMDVec_f_traits .float 32).VEC_INT_TYPE =
          some (.SIMDVec_i I (SIMDVec_f_traits .float 32).VEC_LEN) ∧
        (((SIMDVec_f_traits .float 32).SCALAR_FLOAT_TYPE = .float ∧ U = .uint32_t ∧
            I = .int32_t) ∨
          ((SIMDVec_f_traits .float 32).SCALAR_FLOAT_TYPE = .double ∧ U = .uint64_t ∧
            I = .int64_t))) ∧
      (SIMDVec_f_traits .float 32).SCALAR_TYPE_PTR =
        some (.pointer (SIMDVec_f_traits .float 32).SCALAR_FLOAT_TYPE) ∧
      (SIMDVec_f_traits .float 32).SWIZZLE_MASK_TYPE =
        some (.SIMDVecSwizzle (SIMDVec_f_traits .float 32).VEC_LEN) ∧
      (∃ k, k < 6 ∧ 2 ^ k = (SIMDVec_f_traits .float 32).VEC_LEN) ∧
      (SIMDVec_f_traits .float 32).VEC_LEN *
        (SIMDVec_f_traits .float 32).SCALAR_FLOAT_TYPE.bits ≤ 1024) :=
  ⟨by decide, C33_records_consistent (SIMDVec_f_traits .float 32) (by decide)⟩

end UME
